import Mathlib

/-!
Verification development for the datadog-operator feature-resolution and
defaulting engine.

Embedding conventions:
* Go pointers become `Option`; `nil` is `none`.
* In-place mutation becomes explicit state passing: a Go function that
  mutates its argument and returns an override is embedded as a function
  returning the pair (mutated value, override).
* A Go nil-pointer dereference (panic) is embedded by returning `none`
  from an `Option`-valued function.
* Pointer identity is erased: `IsEqualStruct` compares the contents of
  the embedded values.
* Go struct types of this API are not among the provided sources; their
  fields are reconstructed from every access the provided defaulting and
  factory code performs on them.
-/

namespace DatadogOperator

/-! ## Feature factory (controllers/datadogagent/feature/factory.go) -/

/-- Feature identifiers are opaque, totally ordered tokens; embedded as strings. -/
abbrev IDType := String

/-- Modelled from the spec: the feature identifier constants named by
factory.go (EBPFCheckIDType, CWSIDType, CSPMIDType, OOMKillIDType,
TCPQueueLengthIDType, USMIDType) are defined outside the provided sources.
The spec (section 4.3) names the corresponding capabilities: eBPF-based
checks, compliance/runtime security (CWS), CSPM, OOM-kill detection,
TCP-queue-length inspection and universal-service-monitoring (USM); the
values follow those capability names. -/
def EBPFCheckIDType : IDType := "ebpf_check"

/-- Modelled from the spec: see EBPFCheckIDType. -/
def CWSIDType : IDType := "cws"

/-- Modelled from the spec: see EBPFCheckIDType. -/
def CSPMIDType : IDType := "cspm"

/-- Modelled from the spec: see EBPFCheckIDType. -/
def OOMKillIDType : IDType := "oom_kill"

/-- Modelled from the spec: see EBPFCheckIDType. -/
def TCPQueueLengthIDType : IDType := "tcp_queue_length"

/-- Modelled from the spec: see EBPFCheckIDType. -/
def USMIDType : IDType := "usm"

/-- Modelled from the spec: ComponentKind enumeration
{NodeAgent, ClusterAgent, ClusterCheckRunner} (spec section 3). -/
inductive ComponentKind where
  | nodeAgent
  | clusterAgent
  | clusterChecksRunner
deriving DecidableEq

/-- Modelled from the spec: per-kind ComponentRequirement, a tri-state
enabled flag (true / false / unspecified) and a privileged flag
(spec section 3); the RequiredComponent type is defined outside the
provided sources. -/
structure RequiredComponent where
  IsRequired : Option Bool := none
  Privileged : Bool := false
deriving DecidableEq

/-- Modelled from the spec: RequiredComponents maps each ComponentKind to
its ComponentRequirement (spec section 3); the type is defined outside the
provided sources. -/
structure RequiredComponents where
  Agent : RequiredComponent := {}
  ClusterAgent : RequiredComponent := {}
  ClusterChecksRunner : RequiredComponent := {}
deriving DecidableEq

def RequiredComponents.get (rc : RequiredComponents) : ComponentKind → RequiredComponent
  | ComponentKind.nodeAgent => rc.Agent
  | ComponentKind.clusterAgent => rc.ClusterAgent
  | ComponentKind.clusterChecksRunner => rc.ClusterChecksRunner

/-- Modelled from the spec: the merged enabled state is true if either side
is true; false only if at least one side is explicitly false and neither
side is true; unspecified only if both sides are unspecified
(spec section 4.4). -/
def mergeEnabled (a b : Option Bool) : Option Bool :=
  if a = some true ∨ b = some true then some true
  else if a = some false ∨ b = some false then some false
  else none

/-- Modelled from the spec: privileged is true if either side is true
(spec section 4.4). -/
def RequiredComponent.merge (a b : RequiredComponent) : RequiredComponent :=
  { IsRequired := mergeEnabled a.IsRequired b.IsRequired
    Privileged := a.Privileged || b.Privileged }

/-- Modelled from the spec: Merge(accumulator, incoming) combines the two
requirements kind by kind (spec section 4.4); the method body is defined
outside the provided sources (factory.go only calls it). -/
def RequiredComponents.Merge (acc incoming : RequiredComponents) : RequiredComponents :=
  { Agent := acc.Agent.merge incoming.Agent
    ClusterAgent := acc.ClusterAgent.merge incoming.ClusterAgent
    ClusterChecksRunner := acc.ClusterChecksRunner.merge incoming.ClusterChecksRunner }

/-- apis/utils BoolValue: dereference an optional bool, nil meaning false. -/
def BoolValue (b : Option Bool) : Bool := b.getD false

def RequiredComponent.IsEnabled (rc : RequiredComponent) : Bool := BoolValue rc.IsRequired

def RequiredComponent.IsPrivileged (rc : RequiredComponent) : Bool := rc.Privileged

/-- Modelled from the spec: a requirement is configured when the tri-state
is not unspecified for at least one component (spec section 4.3 step 6). -/
def RequiredComponents.IsConfigured (rc : RequiredComponents) : Bool :=
  rc.Agent.IsRequired.isSome || rc.ClusterAgent.IsRequired.isSome ||
    rc.ClusterChecksRunner.IsRequired.isSome

def duplicateFeatureErrorMessage (id : IDType) : String :=
  String.append (String.append "the Feature " id) " is registered already"

/-- factory.go Register: fail on a duplicate identifier, otherwise store the
constructor. The process-wide map is embedded as an association list passed
and returned explicitly; the returned option is the Go error. -/
def Register {β : Type} (id : IDType) (buildFunc : β)
    (featureBuilders : List (IDType × β)) : List (IDType × β) × Option String :=
  if (featureBuilders.lookup id).isSome then
    (featureBuilders, some (duplicateFeatureErrorMessage id))
  else
    ((id, buildFunc) :: featureBuilders, none)

/-- factory.go privilegedFeatures, in declaration order. -/
def privilegedFeatures : List IDType :=
  [EBPFCheckIDType, CWSIDType, CSPMIDType, OOMKillIDType, TCPQueueLengthIDType, USMIDType]

/-- Go's lexicographic byte-wise string comparison (at most), on char lists. -/
def charListLeb : List Char → List Char → Bool
  | [], _ => true
  | _ :: _, [] => false
  | a :: as, b :: bs =>
    if a.toNat < b.toNat then true
    else if b.toNat < a.toNat then false
    else charListLeb as bs

/-- Identifier comparison: Go's `<=` on strings. -/
def idLeb (a b : IDType) : Bool := charListLeb a.data b.data

def insertID (x : IDType) : List IDType → List IDType
  | [] => [x]
  | y :: ys => if idLeb x y then x :: y :: ys else y :: insertID x ys

/-- Ascending sort of identifiers, as sort.Slice with the string less-than
comparator: an insertion sort over `idLeb`. -/
def sortIDs : List IDType → List IDType
  | [] => []
  | x :: xs => insertID x (sortIDs xs)

/-- factory.go getSortedFeatureIDs. `keys` are the registry's keys (a Go map
iteration yields them in unspecified order; sorting makes the result
deterministic). -/
def getSortedFeatureIDs (keys : List IDType) (useMultiProcessContainer : Bool) :
    List IDType :=
  if useMultiProcessContainer then
    sortIDs (keys.filter (fun k => !(privilegedFeatures.contains k))) ++ privilegedFeatures
  else
    sortIDs keys

/-- factory.go shouldDisableMultiProcessContainer. -/
def shouldDisableMultiProcessContainer (reqComponents : RequiredComponents) : Bool :=
  reqComponents.Agent.IsEnabled && reqComponents.Agent.IsPrivileged

/-- The v2alpha1 global section read by BuildFeatures (lines 45-48);
only the fields factory.go touches are embedded. -/
structure ContainerProcessModel where
  UseMultiProcessContainer : Option Bool := none
deriving DecidableEq

structure GlobalConfig where
  ContainerProcessModel : Option ContainerProcessModel := none
deriving DecidableEq

structure V2DatadogAgentSpec where
  Global : Option GlobalConfig := none
deriving DecidableEq

/-- factory.go lines 44-48: derive the multi-process flag from the spec. -/
def useMultiProcessContainerOf (dda : V2DatadogAgentSpec) : Bool :=
  match dda.Global with
  | none => false
  | some g =>
    match g.ContainerProcessModel with
    | none => false
    | some m => BoolValue m.UseMultiProcessContainer

/-- The mutable state of the BuildFeatures loop: the multi-process flag, the
requirement accumulator and the output feature list (features are
represented by their identifiers). -/
structure BuildState where
  useMPC : Bool
  required : RequiredComponents := {}
  output : List IDType := []
deriving DecidableEq

/-- One iteration of the BuildFeatures loop (factory.go lines 53-64).
`env id flag` stands for `featureBuilders[id](options).Configure(dda, flag)`:
the requirement the feature with identifier `id` declares when configured
under multi-process flag `flag`. -/
def buildStep (env : IDType → Bool → RequiredComponents) (st : BuildState)
    (id : IDType) : BuildState :=
  let reqComponents := env id st.useMPC
  let mpc :=
    if st.useMPC && shouldDisableMultiProcessContainer reqComponents then false
    else st.useMPC
  let out := if reqComponents.IsConfigured then st.output ++ [id] else st.output
  { useMPC := mpc, required := st.required.Merge reqComponents, output := out }

def buildLoop (env : IDType → Bool → RequiredComponents) (ids : List IDType)
    (st : BuildState) : BuildState :=
  ids.foldl (buildStep env) st

/-- factory.go BuildFeatures: compute the multi-process flag, compute the
iteration order once, then run the loop. -/
def BuildFeatures (keys : List IDType) (env : IDType → Bool → RequiredComponents)
    (dda : V2DatadogAgentSpec) : List IDType × RequiredComponents :=
  let useMultiProcessContainer := useMultiProcessContainerOf dda
  let sortedKeys := getSortedFeatureIDs keys useMultiProcessContainer
  let st := buildLoop env sortedKeys { useMPC := useMultiProcessContainer }
  (st.output, st.required)

/-! ## v1alpha1 data model

The v1alpha1 struct types are reconstructed from every field access the
provided defaulting code performs. Kubernetes scalar types are simplified:
int32 and durations become Int (the defaulted values are small constants),
image pull policies and update-strategy types become strings, resource
requirements and canary strategies are opaque (`Unit`) because the
defaulting code only creates them, never inspects them. -/

/-- k8s intstr.IntOrString. -/
inductive IntOrString where
  | int (i : Int)
  | str (s : String)
deriving DecidableEq

structure HTTPGetActionSpec where
  Path : String := ""
  Port : IntOrString := IntOrString.int 0
deriving DecidableEq

structure TCPSocketActionSpec where
  Port : IntOrString := IntOrString.int 0
deriving DecidableEq

/-- corev1.Probe, restricted to the fields the defaulting code sets. -/
structure Probe where
  InitialDelaySeconds : Int := 0
  PeriodSeconds : Int := 0
  TimeoutSeconds : Int := 0
  SuccessThreshold : Int := 0
  FailureThreshold : Int := 0
  HTTPGet : Option HTTPGetActionSpec := none
  TCPSocket : Option TCPSocketActionSpec := none
deriving DecidableEq

structure ImageConfig where
  Name : String := ""
  Tag : String := ""
  PullPolicy : Option String := none
  PullSecrets : Option (List String) := none
deriving DecidableEq

structure DatadogAgentGenericContainerConfig where
  LogLevel : Option String := none
  Resources : Option Unit := none
  LivenessProbe : Option Probe := none
  ReadinessProbe : Option Probe := none
  HealthPort : Option Int := none
deriving DecidableEq

structure CRISocketConfig where
  DockerSocketPath : Option String := none
deriving DecidableEq

structure DSDUnixDomainSocketSpec where
  Enabled : Option Bool := none
  HostFilepath : Option String := none
deriving DecidableEq

structure DogstatsdConfig where
  DogstatsdOriginDetection : Option Bool := none
  UnixDomainSocket : Option DSDUnixDomainSocketSpec := none
deriving DecidableEq

structure NodeAgentSpec where
  ContainerConfig : DatadogAgentGenericContainerConfig := {}
  CollectEvents : Option Bool := none
  LeaderElection : Option Bool := none
  CriSocket : Option CRISocketConfig := none
  Dogstatsd : Option DogstatsdConfig := none
  PodLabelsAsTags : Option (List (String × String)) := none
  PodAnnotationsAsTags : Option (List (String × String)) := none
  Tags : Option (List String) := none
deriving DecidableEq

structure RbacConfig where
  Create : Option Bool := none
deriving DecidableEq

structure DaemonSetRollingUpdateSpec where
  MaxUnavailable : Option IntOrString := none
  MaxPodSchedulerFailure : Option IntOrString := none
  MaxParallelPodCreation : Option Int := none
  SlowStartIntervalDuration : Option Int := none
  SlowStartAdditiveIncrease : Option IntOrString := none
deriving DecidableEq

/-- Canary strategies come from the external extendeddaemonset collaborator;
their content is out of scope (spec section 6), so they are opaque. -/
structure DaemonSetDeploymentStrategy where
  UpdateStrategyType : Option String := none
  RollingUpdate : DaemonSetRollingUpdateSpec := {}
  Canary : Option Unit := none
  ReconcileFrequency : Option Int := none
deriving DecidableEq

structure APMUnixDomainSocketSpec where
  Enabled : Option Bool := none
  HostFilepath : Option String := none
deriving DecidableEq

structure APMSpec where
  Enabled : Option Bool := none
  HostPort : Option Int := none
  ContainerConfig : DatadogAgentGenericContainerConfig := {}
  UnixDomainSocket : Option APMUnixDomainSocketSpec := none
deriving DecidableEq

structure SystemProbeSpec where
  Enabled : Option Bool := none
  EnableOOMKill : Option Bool := none
  EnableTCPQueueLength : Option Bool := none
  BPFDebugEnabled : Option Bool := none
  CollectDNSStats : Option Bool := none
  ConntrackEnabled : Option Bool := none
  SecCompRootPath : String := ""
  AppArmorProfileName : String := ""
  SecCompProfileName : String := ""
deriving DecidableEq

structure SyscallMonitorSpec where
  Enabled : Option Bool := none
deriving DecidableEq

structure ComplianceSpec where
  Enabled : Option Bool := none
deriving DecidableEq

structure RuntimeSecuritySpec where
  Enabled : Option Bool := none
  SyscallMonitor : Option SyscallMonitorSpec := none
deriving DecidableEq

structure SecuritySpec where
  Compliance : ComplianceSpec := {}
  Runtime : RuntimeSecuritySpec := {}
deriving DecidableEq

structure ProcessSpec where
  Enabled : Option Bool := none
  ProcessCollectionEnabled : Option Bool := none
deriving DecidableEq

structure NetworkPolicySpec where
  Create : Option Bool := none
deriving DecidableEq

structure DatadogAgentSpecAgentSpec where
  Enabled : Option Bool := none
  UseExtendedDaemonset : Option Bool := none
  Image : Option ImageConfig := none
  NodeAgent : Option NodeAgentSpec := none
  Rbac : Option RbacConfig := none
  DeploymentStrategy : Option DaemonSetDeploymentStrategy := none
  Apm : Option APMSpec := none
  SystemProbe : Option SystemProbeSpec := none
  Security : Option SecuritySpec := none
  Process : Option ProcessSpec := none
  NetworkPolicy : Option NetworkPolicySpec := none
deriving DecidableEq

structure ScrubbingSpec where
  Containers : Option Bool := none
deriving DecidableEq

structure OrchestratorExplorerConfig where
  Enabled : Option Bool := none
  ClusterCheck : Option Bool := none
  Scrubbing : Option ScrubbingSpec := none
deriving DecidableEq

structure KubeStateMetricsCore where
  Enabled : Option Bool := none
  ClusterCheck : Option Bool := none
deriving DecidableEq

structure PrometheusScrapeConfig where
  Enabled : Option Bool := none
  ServiceEndpoints : Option Bool := none
deriving DecidableEq

structure LogCollectionConfig where
  Enabled : Option Bool := none
  LogsConfigContainerCollectAll : Option Bool := none
  ContainerCollectUsingFiles : Option Bool := none
  ContainerLogsPath : Option String := none
  PodLogsPath : Option String := none
  ContainerSymlinksPath : Option String := none
  TempStoragePath : Option String := none
  OpenFilesLimit : Option Int := none
deriving DecidableEq

structure NetworkMonitoringConfig where
  Enabled : Option Bool := none
deriving DecidableEq

structure DatadogFeatures where
  OrchestratorExplorer : Option OrchestratorExplorerConfig := none
  KubeStateMetricsCore : Option KubeStateMetricsCore := none
  PrometheusScrape : Option PrometheusScrapeConfig := none
  LogCollection : Option LogCollectionConfig := none
  NetworkMonitoring : Option NetworkMonitoringConfig := none
deriving DecidableEq

structure ExternalMetricsConfig where
  Enabled : Option Bool := none
  Port : Option Int := none
deriving DecidableEq

structure AdmissionControllerConfig where
  Enabled : Option Bool := none
  MutateUnlabelled : Option Bool := none
  ServiceName : Option String := none
deriving DecidableEq

structure FeaturesConfigClusterAgent where
  ExternalMetrics : Option ExternalMetricsConfig := none
  ClusterChecksEnabled : Option Bool := none
  CollectEvents : Option Bool := none
  AdmissionController : Option AdmissionControllerConfig := none
deriving DecidableEq

structure ClusterAgentConfig where
  ContainerConfig : DatadogAgentGenericContainerConfig := {}
  Features : FeaturesConfigClusterAgent := {}
deriving DecidableEq

structure DatadogAgentSpecClusterAgentSpec where
  Enabled : Option Bool := none
  Image : Option ImageConfig := none
  Config : Option ClusterAgentConfig := none
  CustomConfig : Option String := none
  Rbac : Option RbacConfig := none
  NetworkPolicy : Option NetworkPolicySpec := none
deriving DecidableEq

structure DatadogAgentSpecClusterChecksRunnerSpec where
  Enabled : Option Bool := none
  Image : Option ImageConfig := none
  ContainerConfig : Option DatadogAgentGenericContainerConfig := none
  Rbac : Option RbacConfig := none
  NetworkPolicy : Option NetworkPolicySpec := none
deriving DecidableEq

structure AgentCredentials where
  UseSecretBackend : Option Bool := none
deriving DecidableEq

structure DatadogAgentSpec where
  Agent : DatadogAgentSpecAgentSpec := {}
  ClusterAgent : DatadogAgentSpecClusterAgentSpec := {}
  ClusterChecksRunner : DatadogAgentSpecClusterChecksRunnerSpec := {}
  Features : DatadogFeatures := {}
  Credentials : Option AgentCredentials := none
deriving DecidableEq

structure DatadogAgent where
  Spec : DatadogAgentSpec := {}
deriving DecidableEq

structure DatadogAgentStatus where
  DefaultOverride : Option DatadogAgentSpec := none
deriving DecidableEq

/-! ## Default value constants (datadogagent_default.go lines 22-105) -/

def defaultLogLevel : String := "INFO"
def defaultAgentImageTag : String := "7.28.0"
def defaultClusterAgentImageTag : String := "1.12.0"
def defaultAgentImageName : String := "agent"
def defaultClusterAgentImageName : String := "cluster-agent"
def defaultCollectEvents : Bool := false
def defaultLeaderElection : Bool := false
def defaultDockerSocketPath : String := "/var/run/docker.sock"
def defaultDogstatsdOriginDetection : Bool := false
def defaultUseDogStatsDSocketVolume : Bool := false
def defaultHostDogstatsdSocketName : String := "statsd.sock"
def defaultHostDogstatsdSocketPath : String := "/var/run/datadog"
def defaultAgentEnabled : Bool := true
def defaultClusterAgentEnabled : Bool := true
def defaultClusterChecksRunnerEnabled : Bool := false
def defaultApmEnabled : Bool := false
def defaultApmHostPort : Int := 8126
def defaultExternalMetricsEnabled : Bool := false
def defaultSystemProbeEnabled : Bool := false
def defaultSystemProbeOOMKillEnabled : Bool := false
def defaultSystemProbeTCPQueueLengthEnabled : Bool := false
def defaultSystemProbeConntrackEnabled : Bool := false
def defaultSystemProbeCollectDNSStats : Bool := false
def defaultSystemProbeBPFDebugEnabled : Bool := false
def defaultSystemProbeSecCompRootPath : String := "/var/lib/kubelet/seccomp"
def defaultAppArmorProfileName : String := "unconfined"
def DefaultSeccompProfileName : String := "localhost/system-probe"
def defaultSecurityRuntimeEnabled : Bool := false
def defaultSecurityComplianceEnabled : Bool := false
def defaultSecuritySyscallMonitorEnabled : Bool := false
def defaultHostApmSocketName : String := "apm.sock"
def defaultHostApmSocketPath : String := "/var/run/datadog"
def defaultLogEnabled : Bool := false
def defaultLogsConfigContainerCollectAll : Bool := false
def defaultLogsContainerCollectUsingFiles : Bool := true
def defaultContainerLogsPath : String := "/var/lib/docker/containers"
def defaultPodLogsPath : String := "/var/log/pods"
def defaultContainerSymlinksPath : String := "/var/log/containers"
def defaultLogsTempStoragePath : String := "/var/lib/datadog-agent/logs"
def defaultLogsOpenFilesLimit : Int := 100
def defaultProcessEnabled : Bool := false
def defaultProcessCollectionEnabled : Bool := false
def defaultOrchestratorExplorerEnabled : Bool := true
def defaultOrchestratorExplorerContainerScrubbingEnabled : Bool := true
def defaultMetricsProviderPort : Int := 8443
def defaultClusterChecksEnabled : Bool := false
def defaultKubeStateMetricsCoreEnabled : Bool := false
def defaultPrometheusScrapeEnabled : Bool := false
def defaultPrometheusScrapeServiceEndpoints : Bool := false
def defaultRollingUpdateMaxUnavailable : String := "10%"
def defaultUpdateStrategy : String := "RollingUpdate"
def defaultRollingUpdateMaxPodSchedulerFailure : String := "10%"
def defaultRollingUpdateMaxParallelPodCreation : Int := 250
def defaultRollingUpdateSlowStartIntervalDuration : Int := 60
def defaultRollingUpdateSlowStartAdditiveIncrease : String := "5"
def defaultReconcileFrequency : Int := 10
def defaultRbacCreate : Bool := true
def defaultMutateUnlabelled : Bool := false
def DefaultAdmissionServiceName : String := "datadog-admission-controller"
def defaultAdmissionControllerEnabled : Bool := false

def defaultLivenessProbeInitialDelaySeconds : Int := 15
def defaultLivenessProbePeriodSeconds : Int := 15
def defaultLivenessProbeTimeoutSeconds : Int := 5
def defaultLivenessProbeSuccessThreshold : Int := 1
def defaultLivenessProbeFailureThreshold : Int := 6
def defaultAgentHealthPort : Int := 5555
def defaultLivenessProbeHTTPPath : String := "/live"

def defaultReadinessProbeInitialDelaySeconds : Int := 15
def defaultReadinessProbePeriodSeconds : Int := 15
def defaultReadinessProbeTimeoutSeconds : Int := 5
def defaultReadinessProbeSuccessThreshold : Int := 1
def defaultReadinessProbeFailureThreshold : Int := 6
def defaultReadinessProbeHTTPPath : String := "/ready"

def defaultImagePullPolicy : String := "IfNotPresent"

/-! ## apis/utils and pkg/utils helpers (outside the provided sources) -/

def NewBoolPointer (b : Bool) : Option Bool := some b

def NewStringPointer (s : String) : Option String := some s

def NewInt32Pointer (i : Int) : Option Int := some i

/-- apis/utils IsEqualStruct: semantic deep equality, embedded as decidable
equality of the compared contents (pointer identity is erased). -/
def IsEqualStruct {α : Type} [DecidableEq α] (a b : α) : Bool := a = b

/-- Split a character list at every occurrence of a separator character
(the list analogue of strings.Split). -/
def splitOnChar (c : Char) : List Char → List (List Char)
  | [] => [[]]
  | x :: xs =>
    let r := splitOnChar c xs
    if x = c then [] :: r
    else
      match r with
      | h :: t => (x :: h) :: t
      | [] => [[x]]

/-- Go strings.TrimSuffix. -/
def trimSuffix (s suffix : String) : String :=
  if suffix.data.isSuffixOf s.data then
    String.mk (s.data.take (s.data.length - suffix.data.length))
  else s

/-- Go path.Join for the two-component paths the defaulting code builds. -/
def pathJoin (a b : String) : String :=
  String.append (String.append a "/") b

def jmxSuffix : String := "-jmx"

/-- Modelled from the spec: the tag-extraction utility
GetTagFromImageName(image) -> tag (spec section 6); it lives in pkg/utils,
outside the provided sources. An image reference with a colon yields the
text after the last colon, otherwise there is no tag and the result is
empty. -/
def GetTagFromImageName (imageName : String) : String :=
  let parts := splitOnChar ':' imageName.data
  if parts.length ≥ 2 then String.mk (parts.getLastD []) else ""

/-- A parsed release version: major, minor, patch and optional prerelease. -/
structure ParsedVersion where
  major : Nat
  minor : Nat
  patch : Nat
  prerelease : Option String
deriving DecidableEq

/-- A decimal digit, as a number. -/
def charDigit? (c : Char) : Option Nat :=
  if 48 ≤ c.toNat && c.toNat ≤ 57 then some (c.toNat - 48) else none

def charsToNatAux : List Char → Nat → Option Nat
  | [], acc => some acc
  | c :: cs, acc =>
    match charDigit? c with
    | none => none
    | some d => charsToNatAux cs (acc * 10 + d)

/-- Parse a non-empty all-digit character list as a natural number. -/
def charsToNat? (l : List Char) : Option Nat :=
  if l.isEmpty then none else charsToNatAux l 0

/-- Modelled from the spec: version parsing for IsAboveMinVersion
(spec sections 6 and 7). A tag parses when it is `major.minor.patch` with an
optional `-prerelease` part and an optional leading `v`; anything else fails
to parse. -/
def parseVersion (tag : String) : Option ParsedVersion :=
  let chars :=
    match tag.data with
    | 'v' :: rest => rest
    | other => other
  match splitOnChar '-' chars with
  | [] => none
  | core :: preParts =>
    let pre :=
      if preParts.isEmpty then none
      else some (String.mk (List.intercalate [Char.ofNat 45] preParts))
    match (splitOnChar '.' core).map charsToNat? with
    | [some a, some b, some c] => some { major := a, minor := b, patch := c, prerelease := pre }
    | _ => none

/-- Prerelease ordering: a release (no prerelease) is above any prerelease
of the same triple; prerelease strings compare byte-wise. -/
def prereleaseGE (a b : Option String) : Bool :=
  match a, b with
  | none, _ => true
  | some _, none => false
  | some x, some y => charListLeb y.data x.data

def versionGE (a b : ParsedVersion) : Bool :=
  if a.major ≠ b.major then b.major ≤ a.major
  else if a.minor ≠ b.minor then b.minor ≤ a.minor
  else if a.patch ≠ b.patch then b.patch ≤ a.patch
  else prereleaseGE a.prerelease b.prerelease

/-- Modelled from the spec: IsAboveMinVersion(tag, minTag) -> bool
(spec section 6), with version-comparison failures treated as below the
minimum version (spec section 7): an unparsable tag yields false. -/
def IsAboveMinVersion (version minVersion : String) : Bool :=
  match parseVersion version, parseVersion minVersion with
  | some v, some m => versionGE v m
  | _, _ => false

/-! ## Defaulting functions (datadogagent_default.go)

Each Go function that mutates a node through a pointer and returns an
override is embedded as a function returning (mutated node, override).
Functions that can hit a nil-pointer dereference return `Option`. -/

/-- datadogagent_default.go GetDefaultLivenessProbe. -/
def GetDefaultLivenessProbe : Probe :=
  { InitialDelaySeconds := defaultLivenessProbeInitialDelaySeconds
    PeriodSeconds := defaultLivenessProbePeriodSeconds
    TimeoutSeconds := defaultLivenessProbeTimeoutSeconds
    SuccessThreshold := defaultLivenessProbeSuccessThreshold
    FailureThreshold := defaultLivenessProbeFailureThreshold
    HTTPGet := some { Path := defaultLivenessProbeHTTPPath
                      Port := IntOrString.int defaultAgentHealthPort } }

/-- datadogagent_default.go GetDefaultReadinessProbe. -/
def GetDefaultReadinessProbe : Probe :=
  { InitialDelaySeconds := defaultReadinessProbeInitialDelaySeconds
    PeriodSeconds := defaultReadinessProbePeriodSeconds
    TimeoutSeconds := defaultReadinessProbeTimeoutSeconds
    SuccessThreshold := defaultReadinessProbeSuccessThreshold
    FailureThreshold := defaultReadinessProbeFailureThreshold
    HTTPGet := some { Path := defaultReadinessProbeHTTPPath
                      Port := IntOrString.int defaultAgentHealthPort } }

/-- datadogagent_default.go getDefaultAPMAgentLivenessProbe. -/
def getDefaultAPMAgentLivenessProbe : Probe :=
  { InitialDelaySeconds := defaultLivenessProbeInitialDelaySeconds
    PeriodSeconds := defaultLivenessProbePeriodSeconds
    TimeoutSeconds := defaultLivenessProbeTimeoutSeconds
    TCPSocket := some { Port := IntOrString.int defaultApmHostPort } }

/-- datadogagent_default.go DefaultDatadogAgentSpecAgentImage. -/
def DefaultDatadogAgentSpecAgentImage (agent : DatadogAgentSpecAgentSpec)
    (name tag : String) : DatadogAgentSpecAgentSpec × ImageConfig :=
  let img := agent.Image.getD {}
  let (img, imgOverride) :=
    if img.Name = "" then
      ({ img with Name := name }, ({ Name := name } : ImageConfig))
    else (img, ({} : ImageConfig))
  let (img, imgOverride) :=
    if img.Tag = "" then
      ({ img with Tag := tag }, { imgOverride with Tag := tag })
    else (img, imgOverride)
  let (img, imgOverride) :=
    if img.PullPolicy = none then
      ({ img with PullPolicy := some defaultImagePullPolicy },
       { imgOverride with PullPolicy := some defaultImagePullPolicy })
    else (img, imgOverride)
  let img := if img.PullSecrets = none then { img with PullSecrets := some [] } else img
  ({ agent with Image := some img }, imgOverride)

/-- datadogagent_default.go DefaultContainerSocket. -/
def DefaultContainerSocket (config : NodeAgentSpec) : NodeAgentSpec × CRISocketConfig :=
  match config.CriSocket with
  | none =>
    let created : CRISocketConfig := { DockerSocketPath := NewStringPointer defaultDockerSocketPath }
    ({ config with CriSocket := some created }, created)
  | some cri =>
    if cri.DockerSocketPath = none then
      let cri := { cri with DockerSocketPath := NewStringPointer defaultDockerSocketPath }
      ({ config with CriSocket := some cri },
       { DockerSocketPath := cri.DockerSocketPath })
    else (config, {})

/-- datadogagent_default.go DefaultConfigDogstatsdUDS. -/
def DefaultConfigDogstatsdUDS (dsd : DogstatsdConfig) :
    DogstatsdConfig × DSDUnixDomainSocketSpec :=
  let uds := dsd.UnixDomainSocket.getD {}
  let (uds, udsOverride) :=
    if uds.Enabled = none then
      ({ uds with Enabled := NewBoolPointer defaultUseDogStatsDSocketVolume },
       ({ Enabled := NewBoolPointer defaultUseDogStatsDSocketVolume } : DSDUnixDomainSocketSpec))
    else (uds, ({} : DSDUnixDomainSocketSpec))
  let (uds, udsOverride) :=
    if uds.HostFilepath = none then
      let socketPath := pathJoin defaultHostDogstatsdSocketPath defaultHostDogstatsdSocketName
      ({ uds with HostFilepath := some socketPath },
       { udsOverride with HostFilepath := some socketPath })
    else (uds, udsOverride)
  ({ dsd with UnixDomainSocket := some uds }, udsOverride)

/-- datadogagent_default.go DefaultConfigDogstatsd. -/
def DefaultConfigDogstatsd (config : NodeAgentSpec) : NodeAgentSpec × DogstatsdConfig :=
  let dsd := config.Dogstatsd.getD {}
  let (dsd, dsdOverride) :=
    if dsd.DogstatsdOriginDetection = none then
      ({ dsd with DogstatsdOriginDetection := NewBoolPointer defaultDogstatsdOriginDetection },
       ({ DogstatsdOriginDetection := NewBoolPointer defaultDogstatsdOriginDetection } : DogstatsdConfig))
    else (dsd, ({} : DogstatsdConfig))
  let (dsd, uds) := DefaultConfigDogstatsdUDS dsd
  let dsdOverride :=
    if !(IsEqualStruct uds ({} : DSDUnixDomainSocketSpec)) then
      { dsdOverride with UnixDomainSocket := some uds }
    else dsdOverride
  ({ config with Dogstatsd := some dsd }, dsdOverride)

/-- datadogagent_default.go DefaultRbacConfig. Its callers pre-create the
RbacConfig before passing the pointer, so the embedded function receives the
struct directly (the function-local nil guard of the source never fires from
the provided call sites). -/
def DefaultRbacConfig (rbac : RbacConfig) : RbacConfig × RbacConfig :=
  if rbac.Create = none then
    ({ rbac with Create := NewBoolPointer defaultRbacCreate },
     { Create := NewBoolPointer defaultRbacCreate })
  else (rbac, {})

/-- datadogagent_default.go DefaultDatadogClusterCheckRunnerSpecRbacConfig. -/
def DefaultDatadogClusterCheckRunnerSpecRbacConfig
    (clc : DatadogAgentSpecClusterChecksRunnerSpec) :
    DatadogAgentSpecClusterChecksRunnerSpec × RbacConfig :=
  let (rbac, ov) := DefaultRbacConfig (clc.Rbac.getD {})
  ({ clc with Rbac := some rbac }, ov)

/-- datadogagent_default.go DefaultDatadogClusterAgentSpecRbacConfig. -/
def DefaultDatadogClusterAgentSpecRbacConfig (dca : DatadogAgentSpecClusterAgentSpec) :
    DatadogAgentSpecClusterAgentSpec × RbacConfig :=
  let (rbac, ov) := DefaultRbacConfig (dca.Rbac.getD {})
  ({ dca with Rbac := some rbac }, ov)

/-- datadogagent_default.go DefaultDatadogAgentSpecRbacConfig. -/
def DefaultDatadogAgentSpecRbacConfig (agent : DatadogAgentSpecAgentSpec) :
    DatadogAgentSpecAgentSpec × RbacConfig :=
  let (rbac, ov) := DefaultRbacConfig (agent.Rbac.getD {})
  ({ agent with Rbac := some rbac }, ov)

/-- datadogagent_default.go DefaultNetworkPolicy. As with DefaultRbacConfig,
the wrappers pre-create the policy before passing the pointer. -/
def DefaultNetworkPolicy (policy : NetworkPolicySpec) :
    NetworkPolicySpec × NetworkPolicySpec :=
  if policy.Create = none then
    ({ policy with Create := NewBoolPointer false },
     { Create := NewBoolPointer false })
  else (policy, {})

/-- datadogagent_default.go DefaultAgentNetworkPolicy. -/
def DefaultAgentNetworkPolicy (agent : DatadogAgentSpecAgentSpec) :
    DatadogAgentSpecAgentSpec × NetworkPolicySpec :=
  let (pol, ov) := DefaultNetworkPolicy (agent.NetworkPolicy.getD {})
  ({ agent with NetworkPolicy := some pol }, ov)

/-- datadogagent_default.go DefaultClusterAgentNetworkPolicy. -/
def DefaultClusterAgentNetworkPolicy (dca : DatadogAgentSpecClusterAgentSpec) :
    DatadogAgentSpecClusterAgentSpec × NetworkPolicySpec :=
  let (pol, ov) := DefaultNetworkPolicy (dca.NetworkPolicy.getD {})
  ({ dca with NetworkPolicy := some pol }, ov)

/-- datadogagent_default.go DefaultClusterCheckRunnerNetworkPolicy. -/
def DefaultClusterCheckRunnerNetworkPolicy
    (clc : DatadogAgentSpecClusterChecksRunnerSpec) :
    DatadogAgentSpecClusterChecksRunnerSpec × NetworkPolicySpec :=
  let (pol, ov) := DefaultNetworkPolicy (clc.NetworkPolicy.getD {})
  ({ clc with NetworkPolicy := some pol }, ov)

/-- datadogagent_default.go DefaultDatadogAgentSpecDatadogAgentStrategy.
The canary default comes from the external extendeddaemonset collaborator
(spec section 6) and is opaque here. -/
def DefaultDatadogAgentSpecDatadogAgentStrategy (agents : DatadogAgentSpecAgentSpec) :
    DatadogAgentSpecAgentSpec × DaemonSetDeploymentStrategy :=
  let strat := agents.DeploymentStrategy.getD {}
  let (strat, strategyOverride) :=
    if strat.UpdateStrategyType = none then
      ({ strat with UpdateStrategyType := some defaultUpdateStrategy },
       ({ UpdateStrategyType := some defaultUpdateStrategy } : DaemonSetDeploymentStrategy))
    else (strat, ({} : DaemonSetDeploymentStrategy))
  let (strat, strategyOverride) :=
    if strat.RollingUpdate.MaxUnavailable = none then
      let v := some (IntOrString.str defaultRollingUpdateMaxUnavailable)
      ({ strat with RollingUpdate := { strat.RollingUpdate with MaxUnavailable := v } },
       { strategyOverride with RollingUpdate := { strategyOverride.RollingUpdate with MaxUnavailable := v } })
    else (strat, strategyOverride)
  let (strat, strategyOverride) :=
    if strat.RollingUpdate.MaxPodSchedulerFailure = none then
      let v := some (IntOrString.str defaultRollingUpdateMaxPodSchedulerFailure)
      ({ strat with RollingUpdate := { strat.RollingUpdate with MaxPodSchedulerFailure := v } },
       { strategyOverride with RollingUpdate := { strategyOverride.RollingUpdate with MaxPodSchedulerFailure := v } })
    else (strat, strategyOverride)
  let (strat, strategyOverride) :=
    if strat.RollingUpdate.MaxParallelPodCreation = none then
      let v := NewInt32Pointer defaultRollingUpdateMaxParallelPodCreation
      ({ strat with RollingUpdate := { strat.RollingUpdate with MaxParallelPodCreation := v } },
       { strategyOverride with RollingUpdate := { strategyOverride.RollingUpdate with MaxParallelPodCreation := v } })
    else (strat, strategyOverride)
  let (strat, strategyOverride) :=
    if strat.RollingUpdate.SlowStartIntervalDuration = none then
      let v := some defaultRollingUpdateSlowStartIntervalDuration
      ({ strat with RollingUpdate := { strat.RollingUpdate with SlowStartIntervalDuration := v } },
       { strategyOverride with RollingUpdate := { strategyOverride.RollingUpdate with SlowStartIntervalDuration := v } })
    else (strat, strategyOverride)
  let (strat, strategyOverride) :=
    if strat.RollingUpdate.SlowStartAdditiveIncrease = none then
      let v := some (IntOrString.str defaultRollingUpdateSlowStartAdditiveIncrease)
      ({ strat with RollingUpdate := { strat.RollingUpdate with SlowStartAdditiveIncrease := v } },
       { strategyOverride with RollingUpdate := { strategyOverride.RollingUpdate with SlowStartAdditiveIncrease := v } })
    else (strat, strategyOverride)
  let (strat, strategyOverride) :=
    if strat.Canary = none then
      ({ strat with Canary := some () }, { strategyOverride with Canary := some () })
    else (strat, strategyOverride)
  let (strat, strategyOverride) :=
    if strat.ReconcileFrequency = none then
      let v := some defaultReconcileFrequency
      ({ strat with ReconcileFrequency := v },
       { strategyOverride with ReconcileFrequency := v })
    else (strat, strategyOverride)
  ({ agents with DeploymentStrategy := some strat }, strategyOverride)

/-- datadogagent_default.go DefaultDatadogAgentSpecAgentApmUDS. -/
def DefaultDatadogAgentSpecAgentApmUDS (apm : APMSpec) :
    APMSpec × APMUnixDomainSocketSpec :=
  match apm.UnixDomainSocket with
  | none =>
    let created : APMUnixDomainSocketSpec := { Enabled := NewBoolPointer false }
    ({ apm with UnixDomainSocket := some created }, created)
  | some uds =>
    let (uds, udsOverride) :=
      if uds.Enabled = none then
        ({ uds with Enabled := NewBoolPointer false },
         ({ Enabled := NewBoolPointer false } : APMUnixDomainSocketSpec))
      else (uds, ({} : APMUnixDomainSocketSpec))
    if !(BoolValue uds.Enabled) then
      ({ apm with UnixDomainSocket := some uds }, udsOverride)
    else
      let (uds, udsOverride) :=
        if uds.HostFilepath = none then
          let socketPath := pathJoin defaultHostApmSocketPath defaultHostApmSocketName
          ({ uds with HostFilepath := some socketPath },
           { udsOverride with HostFilepath := some socketPath })
        else (uds, udsOverride)
      ({ apm with UnixDomainSocket := some uds }, udsOverride)

/-- datadogagent_default.go DefaultDatadogAgentSpecAgentApm. -/
def DefaultDatadogAgentSpecAgentApm (agents : DatadogAgentSpecAgentSpec) :
    DatadogAgentSpecAgentSpec × APMSpec :=
  match agents.Apm with
  | none =>
    let created : APMSpec := { Enabled := NewBoolPointer defaultApmEnabled }
    ({ agents with Apm := some created }, created)
  | some apm =>
    let (apm, apmOverride) :=
      if apm.Enabled = none then
        ({ apm with Enabled := NewBoolPointer defaultApmEnabled },
         ({ Enabled := NewBoolPointer defaultApmEnabled } : APMSpec))
      else (apm, ({} : APMSpec))
    if !(BoolValue apm.Enabled) then
      ({ agents with Apm := some apm }, apmOverride)
    else
      let (apm, apmOverride) :=
        if apm.HostPort = none then
          ({ apm with HostPort := NewInt32Pointer defaultApmHostPort },
           { apmOverride with HostPort := NewInt32Pointer defaultApmHostPort })
        else (apm, apmOverride)
      let (apm, apmOverride) :=
        if apm.ContainerConfig.LivenessProbe = none then
          ({ apm with ContainerConfig := { apm.ContainerConfig with LivenessProbe := some getDefaultAPMAgentLivenessProbe } },
           { apmOverride with ContainerConfig := { apmOverride.ContainerConfig with LivenessProbe := some getDefaultAPMAgentLivenessProbe } })
        else (apm, apmOverride)
      let (apm, udsOverride) := DefaultDatadogAgentSpecAgentApmUDS apm
      let apmOverride :=
        if !(IsEqualStruct udsOverride ({} : APMUnixDomainSocketSpec)) then
          { apmOverride with UnixDomainSocket := some udsOverride }
        else apmOverride
      ({ agents with Apm := some apm }, apmOverride)

/-- datadogagent_default.go DefaultDatadogAgentSpecAgentSystemProbe. -/
def DefaultDatadogAgentSpecAgentSystemProbe (agents : DatadogAgentSpecAgentSpec) :
    DatadogAgentSpecAgentSpec × SystemProbeSpec :=
  match agents.SystemProbe with
  | none =>
    let created : SystemProbeSpec := { Enabled := NewBoolPointer defaultSystemProbeEnabled }
    ({ agents with SystemProbe := some created }, created)
  | some sp =>
    let (sp, sysOverride) :=
      if sp.Enabled = none then
        ({ sp with Enabled := NewBoolPointer defaultSystemProbeEnabled },
         ({ Enabled := NewBoolPointer defaultSystemProbeEnabled } : SystemProbeSpec))
      else (sp, ({} : SystemProbeSpec))
    if !(BoolValue sp.Enabled) then
      ({ agents with SystemProbe := some sp }, sysOverride)
    else
      let (sp, sysOverride) :=
        if sp.EnableOOMKill = none then
          ({ sp with EnableOOMKill := NewBoolPointer defaultSystemProbeOOMKillEnabled },
           { sysOverride with EnableOOMKill := NewBoolPointer defaultSystemProbeOOMKillEnabled })
        else (sp, sysOverride)
      let (sp, sysOverride) :=
        if sp.EnableTCPQueueLength = none then
          ({ sp with EnableTCPQueueLength := NewBoolPointer defaultSystemProbeTCPQueueLengthEnabled },
           { sysOverride with EnableTCPQueueLength := NewBoolPointer defaultSystemProbeTCPQueueLengthEnabled })
        else (sp, sysOverride)
      let (sp, sysOverride) :=
        if sp.BPFDebugEnabled = none then
          ({ sp with BPFDebugEnabled := NewBoolPointer defaultSystemProbeBPFDebugEnabled },
           { sysOverride with BPFDebugEnabled := NewBoolPointer defaultSystemProbeBPFDebugEnabled })
        else (sp, sysOverride)
      let (sp, sysOverride) :=
        if sp.CollectDNSStats = none then
          ({ sp with CollectDNSStats := NewBoolPointer defaultSystemProbeCollectDNSStats },
           { sysOverride with CollectDNSStats := NewBoolPointer defaultSystemProbeCollectDNSStats })
        else (sp, sysOverride)
      let (sp, sysOverride) :=
        if sp.ConntrackEnabled = none then
          ({ sp with ConntrackEnabled := NewBoolPointer defaultSystemProbeConntrackEnabled },
           { sysOverride with ConntrackEnabled := NewBoolPointer defaultSystemProbeConntrackEnabled })
        else (sp, sysOverride)
      let (sp, sysOverride) :=
        if sp.SecCompRootPath = "" then
          ({ sp with SecCompRootPath := defaultSystemProbeSecCompRootPath },
           { sysOverride with SecCompRootPath := defaultSystemProbeSecCompRootPath })
        else (sp, sysOverride)
      let (sp, sysOverride) :=
        if sp.AppArmorProfileName = "" then
          ({ sp with AppArmorProfileName := defaultAppArmorProfileName },
           { sysOverride with AppArmorProfileName := defaultAppArmorProfileName })
        else (sp, sysOverride)
      let (sp, sysOverride) :=
        if sp.SecCompProfileName = "" then
          ({ sp with SecCompProfileName := DefaultSeccompProfileName },
           { sysOverride with SecCompProfileName := DefaultSeccompProfileName })
        else (sp, sysOverride)
      ({ agents with SystemProbe := some sp }, sysOverride)

/-- datadogagent_default.go DefaultDatadogAgentSpecAgentSecurity. -/
def DefaultDatadogAgentSpecAgentSecurity (agents : DatadogAgentSpecAgentSpec) :
    DatadogAgentSpecAgentSpec × SecuritySpec :=
  let sec := agents.Security.getD {}
  let (sec, secOverride) :=
    if sec.Compliance.Enabled = none then
      ({ sec with Compliance := { sec.Compliance with Enabled := NewBoolPointer defaultSecurityComplianceEnabled } },
       ({ Compliance := { Enabled := NewBoolPointer defaultSecurityComplianceEnabled } } : SecuritySpec))
    else (sec, ({} : SecuritySpec))
  let (sec, secOverride) :=
    if sec.Runtime.Enabled = none then
      ({ sec with Runtime := { sec.Runtime with Enabled := NewBoolPointer defaultSecurityRuntimeEnabled } },
       { secOverride with Runtime := { secOverride.Runtime with Enabled := NewBoolPointer defaultSecurityRuntimeEnabled } })
    else (sec, secOverride)
  let (sec, secOverride) :=
    if sec.Runtime.SyscallMonitor = none then
      ({ sec with Runtime := { sec.Runtime with SyscallMonitor := some {} } },
       { secOverride with Runtime := { secOverride.Runtime with SyscallMonitor := some {} } })
    else (sec, secOverride)
  let (sec, secOverride) :=
    if (sec.Runtime.SyscallMonitor.getD {}).Enabled = none then
      let v := NewBoolPointer defaultSecuritySyscallMonitorEnabled
      ({ sec with Runtime := { sec.Runtime with SyscallMonitor := some { Enabled := v } } },
       { secOverride with Runtime := { secOverride.Runtime with SyscallMonitor := some { Enabled := v } } })
    else (sec, secOverride)
  ({ agents with Security := some sec }, secOverride)

/-- datadogagent_default.go DefaultDatadogAgentSpecAgentProcess. -/
def DefaultDatadogAgentSpecAgentProcess (agents : DatadogAgentSpecAgentSpec) :
    DatadogAgentSpecAgentSpec × ProcessSpec :=
  match agents.Process with
  | none =>
    let created : ProcessSpec := { Enabled := NewBoolPointer defaultProcessEnabled }
    ({ agents with Process := some created }, created)
  | some proc =>
    let (proc, processOverride) :=
      if proc.Enabled = none then
        ({ proc with Enabled := NewBoolPointer defaultProcessEnabled },
         ({ Enabled := NewBoolPointer defaultProcessEnabled } : ProcessSpec))
      else (proc, ({} : ProcessSpec))
    if !(BoolValue proc.Enabled) then
      ({ agents with Process := some proc }, processOverride)
    else
      let (proc, processOverride) :=
        if proc.ProcessCollectionEnabled = none then
          ({ proc with ProcessCollectionEnabled := NewBoolPointer defaultProcessCollectionEnabled },
           { processOverride with ProcessCollectionEnabled := NewBoolPointer defaultProcessCollectionEnabled })
        else (proc, processOverride)
      ({ agents with Process := some proc }, processOverride)

/-- datadogagent_default.go DefaultDatadogAgentSpecAgentConfig.
Returns `none` when the source would dereference a nil Image (line 325).
At lines 307-310 the source assigns the freshly-defaulted LogLevel back to
the spec field itself instead of recording it in configOverride; the
embedding reproduces that: the override's LogLevel is left unset. -/
def DefaultDatadogAgentSpecAgentConfig (agents : DatadogAgentSpecAgentSpec) :
    Option (DatadogAgentSpecAgentSpec × NodeAgentSpec) :=
  let na := agents.NodeAgent.getD {}
  let na :=
    if na.ContainerConfig.LogLevel = none then
      { na with ContainerConfig := { na.ContainerConfig with LogLevel := NewStringPointer defaultLogLevel } }
    else na
  let (na, configOverride) :=
    if na.CollectEvents = none then
      ({ na with CollectEvents := NewBoolPointer defaultCollectEvents },
       ({ CollectEvents := NewBoolPointer defaultCollectEvents } : NodeAgentSpec))
    else (na, ({} : NodeAgentSpec))
  let (na, configOverride) :=
    if na.LeaderElection = none then
      ({ na with LeaderElection := NewBoolPointer defaultLeaderElection },
       { configOverride with LeaderElection := NewBoolPointer defaultLeaderElection })
    else (na, configOverride)
  match agents.Image with
  | none => none
  | some img =>
    let agentTag := trimSuffix (GetTagFromImageName img.Name) jmxSuffix
    let (na, configOverride) :=
      if !(agentTag = "latest" || IsAboveMinVersion agentTag "7.27.0-0" ||
            IsAboveMinVersion agentTag "6.27.0-0") then
        let (na, socketOverride) := DefaultContainerSocket na
        if !(IsEqualStruct socketOverride ({} : CRISocketConfig)) then
          (na, { configOverride with CriSocket := some socketOverride })
        else (na, configOverride)
      else (na, configOverride)
    let (na, dsdOverride) := DefaultConfigDogstatsd na
    let configOverride :=
      if !(IsEqualStruct dsdOverride ({} : DogstatsdConfig)) then
        { configOverride with Dogstatsd := some dsdOverride }
      else configOverride
    let na :=
      if na.ContainerConfig.Resources = none then
        { na with ContainerConfig := { na.ContainerConfig with Resources := some () } }
      else na
    let na := if na.PodLabelsAsTags = none then { na with PodLabelsAsTags := some [] } else na
    let na :=
      if na.PodAnnotationsAsTags = none then { na with PodAnnotationsAsTags := some [] } else na
    let na := if na.Tags = none then { na with Tags := some [] } else na
    let (na, configOverride) :=
      if na.ContainerConfig.LivenessProbe = none then
        ({ na with ContainerConfig := { na.ContainerConfig with LivenessProbe := some GetDefaultLivenessProbe } },
         { configOverride with ContainerConfig := { configOverride.ContainerConfig with LivenessProbe := some GetDefaultLivenessProbe } })
      else (na, configOverride)
    let (na, configOverride) :=
      if na.ContainerConfig.ReadinessProbe = none then
        ({ na with ContainerConfig := { na.ContainerConfig with ReadinessProbe := some GetDefaultReadinessProbe } },
         { configOverride with ContainerConfig := { configOverride.ContainerConfig with ReadinessProbe := some GetDefaultReadinessProbe } })
      else (na, configOverride)
    let (na, configOverride) :=
      if na.ContainerConfig.HealthPort = none then
        ({ na with ContainerConfig := { na.ContainerConfig with HealthPort := NewInt32Pointer defaultAgentHealthPort } },
         { configOverride with ContainerConfig := { configOverride.ContainerConfig with HealthPort := NewInt32Pointer defaultAgentHealthPort } })
      else (na, configOverride)
    some ({ agents with NodeAgent := some na }, configOverride)

/-- datadogagent_default.go DefaultDatadogAgentSpecAgent. -/
def DefaultDatadogAgentSpecAgent (daemonsetAgents : DatadogAgentSpecAgentSpec) :
    Option (DatadogAgentSpecAgentSpec × DatadogAgentSpecAgentSpec) :=
  let isEmpty := IsEqualStruct daemonsetAgents ({} : DatadogAgentSpecAgentSpec)
  let daemonsetAgents :=
    if isEmpty then { daemonsetAgents with Enabled := NewBoolPointer defaultAgentEnabled }
    else daemonsetAgents
  if isEmpty && !(BoolValue daemonsetAgents.Enabled) then
    some (daemonsetAgents, daemonsetAgents)
  else
    let (daemonsetAgents, daemonsetAgentsOverride) :=
      if daemonsetAgents.Enabled = none then
        ({ daemonsetAgents with Enabled := NewBoolPointer defaultAgentEnabled },
         ({ Enabled := NewBoolPointer defaultAgentEnabled } : DatadogAgentSpecAgentSpec))
      else (daemonsetAgents, ({} : DatadogAgentSpecAgentSpec))
    if !(BoolValue daemonsetAgents.Enabled) then
      some (daemonsetAgents, daemonsetAgentsOverride)
    else
      let (daemonsetAgents, daemonsetAgentsOverride) :=
        if daemonsetAgents.UseExtendedDaemonset = none then
          ({ daemonsetAgents with UseExtendedDaemonset := NewBoolPointer false },
           { daemonsetAgentsOverride with UseExtendedDaemonset := NewBoolPointer false })
        else (daemonsetAgents, daemonsetAgentsOverride)
      let (daemonsetAgents, img) :=
        DefaultDatadogAgentSpecAgentImage daemonsetAgents defaultAgentImageName defaultAgentImageTag
      let daemonsetAgentsOverride :=
        if !(IsEqualStruct img ({} : ImageConfig)) then
          { daemonsetAgentsOverride with Image := some img }
        else daemonsetAgentsOverride
      match DefaultDatadogAgentSpecAgentConfig daemonsetAgents with
      | none => none
      | some (daemonsetAgents, cfg) =>
        let daemonsetAgentsOverride :=
          if !(IsEqualStruct cfg ({} : NodeAgentSpec)) then
            { daemonsetAgentsOverride with NodeAgent := some cfg }
          else daemonsetAgentsOverride
        let (daemonsetAgents, rbac) := DefaultDatadogAgentSpecRbacConfig daemonsetAgents
        let daemonsetAgentsOverride :=
          if !(IsEqualStruct rbac ({} : RbacConfig)) then
            { daemonsetAgentsOverride with Rbac := some rbac }
          else daemonsetAgentsOverride
        let (daemonsetAgents, deployStrat) :=
          DefaultDatadogAgentSpecDatadogAgentStrategy daemonsetAgents
        let daemonsetAgentsOverride :=
          if !(IsEqualStruct deployStrat ({} : DaemonSetDeploymentStrategy)) then
            { daemonsetAgentsOverride with DeploymentStrategy := some deployStrat }
          else daemonsetAgentsOverride
        let (daemonsetAgents, apm) := DefaultDatadogAgentSpecAgentApm daemonsetAgents
        let daemonsetAgentsOverride :=
          if !(IsEqualStruct apm ({} : APMSpec)) then
            { daemonsetAgentsOverride with Apm := some apm }
          else daemonsetAgentsOverride
        let (daemonsetAgents, sysProb) := DefaultDatadogAgentSpecAgentSystemProbe daemonsetAgents
        let daemonsetAgentsOverride :=
          if !(IsEqualStruct sysProb ({} : SystemProbeSpec)) then
            { daemonsetAgentsOverride with SystemProbe := some sysProb }
          else daemonsetAgentsOverride
        let (daemonsetAgents, sec) := DefaultDatadogAgentSpecAgentSecurity daemonsetAgents
        let daemonsetAgentsOverride :=
          if !(IsEqualStruct sec ({} : SecuritySpec)) then
            { daemonsetAgentsOverride with Security := some sec }
          else daemonsetAgentsOverride
        let (daemonsetAgents, proc) := DefaultDatadogAgentSpecAgentProcess daemonsetAgents
        let daemonsetAgentsOverride :=
          if !(IsEqualStruct proc ({} : ProcessSpec)) then
            { daemonsetAgentsOverride with Process := some proc }
          else daemonsetAgentsOverride
        let (daemonsetAgents, net) := DefaultAgentNetworkPolicy daemonsetAgents
        let daemonsetAgentsOverride :=
          if !(IsEqualStruct net ({} : NetworkPolicySpec)) then
            { daemonsetAgentsOverride with NetworkPolicy := some net }
          else daemonsetAgentsOverride
        some (daemonsetAgents, daemonsetAgentsOverride)

/-- datadogagent_default.go clusterChecksRunnerEnabled. -/
def clusterChecksRunnerEnabled (dda : DatadogAgent) : Bool :=
  match dda.Spec.ClusterChecksRunner.Enabled with
  | some b => b
  | none => false

/-- datadogagent_default.go defaultEnabledDatadogFeatureOrchestratorExplorer.
Returns `none` where the source dereferences the override's Scrubbing
pointer without having set it (line 857: reachable when the user supplied a
Scrubbing block whose Containers flag is unset). -/
def defaultEnabledDatadogFeatureOrchestratorExplorer (config : OrchestratorExplorerConfig)
    (withClusterChecksRunner : Bool) :
    Option (OrchestratorExplorerConfig × OrchestratorExplorerConfig) :=
  let (config, explorerConfigOverride) :=
    if config.Enabled = none then
      ({ config with Enabled := NewBoolPointer defaultOrchestratorExplorerEnabled },
       ({ Enabled := NewBoolPointer defaultOrchestratorExplorerEnabled } : OrchestratorExplorerConfig))
    else (config, ({} : OrchestratorExplorerConfig))
  if BoolValue config.Enabled then
    let (config, explorerConfigOverride) :=
      if config.ClusterCheck = none then
        ({ config with ClusterCheck := NewBoolPointer withClusterChecksRunner },
         { explorerConfigOverride with ClusterCheck := NewBoolPointer withClusterChecksRunner })
      else (config, explorerConfigOverride)
    let (config, explorerConfigOverride) :=
      if config.Scrubbing = none then
        ({ config with Scrubbing := some {} },
         { explorerConfigOverride with Scrubbing := some {} })
      else (config, explorerConfigOverride)
    match config.Scrubbing with
    | none => none
    | some scr =>
      if scr.Containers = none then
        match explorerConfigOverride.Scrubbing with
        | none => none
        | some ovScr =>
          let v := NewBoolPointer defaultOrchestratorExplorerContainerScrubbingEnabled
          some ({ config with Scrubbing := some { scr with Containers := v } },
                { explorerConfigOverride with Scrubbing := some { ovScr with Containers := v } })
      else some (config, explorerConfigOverride)
  else
    some (config, { explorerConfigOverride with Enabled := NewBoolPointer false })

/-- datadogagent_default.go DefaultDatadogFeatureOrchestratorExplorer. -/
def DefaultDatadogFeatureOrchestratorExplorer (ft : DatadogFeatures)
    (withClusterChecksRunner : Bool) :
    Option (DatadogFeatures × OrchestratorExplorerConfig) :=
  let cfg := ft.OrchestratorExplorer.getD {}
  match defaultEnabledDatadogFeatureOrchestratorExplorer cfg withClusterChecksRunner with
  | none => none
  | some (cfg, ov) => some ({ ft with OrchestratorExplorer := some cfg }, ov)

/-- datadogagent_default.go DefaultDatadogFeatureKubeStateMetricsCore. -/
def DefaultDatadogFeatureKubeStateMetricsCore (ft : DatadogFeatures)
    (withClusterChecksRunner : Bool) : DatadogFeatures × KubeStateMetricsCore :=
  match ft.KubeStateMetricsCore with
  | none =>
    let created : KubeStateMetricsCore :=
      { Enabled := NewBoolPointer defaultKubeStateMetricsCoreEnabled
        ClusterCheck := NewBoolPointer withClusterChecksRunner }
    ({ ft with KubeStateMetricsCore := some created }, created)
  | some ksm =>
    let ksm :=
      if ksm.Enabled = none then
        { ksm with Enabled := NewBoolPointer defaultKubeStateMetricsCoreEnabled }
      else ksm
    let ksm :=
      if ksm.ClusterCheck = none then
        { ksm with ClusterCheck := NewBoolPointer withClusterChecksRunner }
      else ksm
    ({ ft with KubeStateMetricsCore := some ksm },
     { Enabled := ksm.Enabled, ClusterCheck := ksm.ClusterCheck })

/-- datadogagent_default.go DefaultDatadogFeaturePrometheusScrape. -/
def DefaultDatadogFeaturePrometheusScrape (ft : DatadogFeatures) :
    DatadogFeatures × PrometheusScrapeConfig :=
  let ps :=
    match ft.PrometheusScrape with
    | none => ({ Enabled := NewBoolPointer defaultPrometheusScrapeEnabled } : PrometheusScrapeConfig)
    | some ps => ps
  let ps :=
    if ps.Enabled = none then
      { ps with Enabled := NewBoolPointer defaultPrometheusScrapeEnabled }
    else ps
  let promOverride : PrometheusScrapeConfig := { Enabled := ps.Enabled }
  if !(BoolValue ps.Enabled) then
    ({ ft with PrometheusScrape := some ps }, promOverride)
  else
    let (ps, promOverride) :=
      if ps.ServiceEndpoints = none then
        ({ ps with ServiceEndpoints := NewBoolPointer defaultPrometheusScrapeServiceEndpoints },
         { promOverride with ServiceEndpoints := NewBoolPointer defaultPrometheusScrapeServiceEndpoints })
      else (ps, promOverride)
    ({ ft with PrometheusScrape := some ps }, promOverride)

/-- datadogagent_default.go DefaultDatadogFeatureLogCollection. -/
def DefaultDatadogFeatureLogCollection (ft : DatadogFeatures) :
    DatadogFeatures × LogCollectionConfig :=
  match ft.LogCollection with
  | none =>
    let created : LogCollectionConfig := { Enabled := NewBoolPointer defaultLogEnabled }
    ({ ft with LogCollection := some created }, created)
  | some lc =>
    let lc :=
      if lc.Enabled = none then { lc with Enabled := NewBoolPointer defaultLogEnabled } else lc
    let logOverride : LogCollectionConfig := { Enabled := lc.Enabled }
    if !(BoolValue lc.Enabled) then
      ({ ft with LogCollection := some lc }, logOverride)
    else
      let (lc, logOverride) :=
        if lc.LogsConfigContainerCollectAll = none then
          ({ lc with LogsConfigContainerCollectAll := NewBoolPointer defaultLogsConfigContainerCollectAll },
           { logOverride with LogsConfigContainerCollectAll := NewBoolPointer defaultLogsConfigContainerCollectAll })
        else (lc, logOverride)
      let (lc, logOverride) :=
        if lc.ContainerCollectUsingFiles = none then
          ({ lc with ContainerCollectUsingFiles := NewBoolPointer defaultLogsContainerCollectUsingFiles },
           { logOverride with ContainerCollectUsingFiles := NewBoolPointer defaultLogsContainerCollectUsingFiles })
        else (lc, logOverride)
      let (lc, logOverride) :=
        if lc.ContainerLogsPath = none then
          ({ lc with ContainerLogsPath := NewStringPointer defaultContainerLogsPath },
           { logOverride with ContainerLogsPath := NewStringPointer defaultContainerLogsPath })
        else (lc, logOverride)
      let (lc, logOverride) :=
        if lc.PodLogsPath = none then
          ({ lc with PodLogsPath := NewStringPointer defaultPodLogsPath },
           { logOverride with PodLogsPath := NewStringPointer defaultPodLogsPath })
        else (lc, logOverride)
      let (lc, logOverride) :=
        if lc.ContainerSymlinksPath = none then
          ({ lc with ContainerSymlinksPath := NewStringPointer defaultContainerSymlinksPath },
           { logOverride with ContainerSymlinksPath := NewStringPointer defaultContainerSymlinksPath })
        else (lc, logOverride)
      let (lc, logOverride) :=
        if lc.TempStoragePath = none then
          ({ lc with TempStoragePath := NewStringPointer defaultLogsTempStoragePath },
           { logOverride with TempStoragePath := NewStringPointer defaultLogsTempStoragePath })
        else (lc, logOverride)
      let (lc, logOverride) :=
        if lc.OpenFilesLimit = none then
          ({ lc with OpenFilesLimit := NewInt32Pointer defaultLogsOpenFilesLimit },
           { logOverride with OpenFilesLimit := NewInt32Pointer defaultLogsOpenFilesLimit })
        else (lc, logOverride)
      ({ ft with LogCollection := some lc }, logOverride)

/-- datadogagent_default.go DefaultDatadogFeatureNetworkMonitoring. -/
def DefaultDatadogFeatureNetworkMonitoring (ft : DatadogFeatures) :
    DatadogFeatures × NetworkMonitoringConfig :=
  match ft.NetworkMonitoring with
  | none =>
    let created : NetworkMonitoringConfig := { Enabled := NewBoolPointer false }
    if !(BoolValue created.Enabled) then
      ({ ft with NetworkMonitoring := some created }, created)
    else
      ({ ft with NetworkMonitoring := some created }, { Enabled := created.Enabled })
  | some nm =>
    let nm := if nm.Enabled = none then { nm with Enabled := NewBoolPointer false } else nm
    ({ ft with NetworkMonitoring := some nm }, { Enabled := nm.Enabled })

/-- datadogagent_default.go DefaultFeatures. -/
def DefaultFeatures (dda : DatadogAgent) : Option (DatadogAgent × DatadogFeatures) :=
  let ft := dda.Spec.Features
  let clusterCheckEnabled := clusterChecksRunnerEnabled dda
  match DefaultDatadogFeatureOrchestratorExplorer ft clusterCheckEnabled with
  | none => none
  | some (ft, orch) =>
    let featureOverride : DatadogFeatures :=
      if !(IsEqualStruct orch ({} : OrchestratorExplorerConfig)) then
        { OrchestratorExplorer := some orch }
      else {}
    let (ft, ksm) := DefaultDatadogFeatureKubeStateMetricsCore ft clusterCheckEnabled
    let featureOverride :=
      if !(IsEqualStruct ksm ({} : KubeStateMetricsCore)) then
        { featureOverride with KubeStateMetricsCore := some ksm }
      else featureOverride
    let (ft, promScrape) := DefaultDatadogFeaturePrometheusScrape ft
    let featureOverride :=
      if !(IsEqualStruct promScrape ({} : PrometheusScrapeConfig)) then
        { featureOverride with PrometheusScrape := some promScrape }
      else featureOverride
    let (ft, logColl) := DefaultDatadogFeatureLogCollection ft
    let featureOverride :=
      if !(IsEqualStruct logColl ({} : LogCollectionConfig)) then
        { featureOverride with LogCollection := some logColl }
      else featureOverride
    let (ft, net) := DefaultDatadogFeatureNetworkMonitoring ft
    let featureOverride :=
      if !(IsEqualStruct net ({} : NetworkMonitoringConfig)) then
        { featureOverride with NetworkMonitoring := some net }
      else featureOverride
    some ({ dda with Spec := { dda.Spec with Features := ft } }, featureOverride)

/-- datadogagent_default.go DefaultDatadogClusterAgentImage. -/
def DefaultDatadogClusterAgentImage (dca : DatadogAgentSpecClusterAgentSpec)
    (name tag : String) : DatadogAgentSpecClusterAgentSpec × ImageConfig :=
  let img := dca.Image.getD {}
  let (img, imgOverride) :=
    if img.Name = "" then
      ({ img with Name := name }, ({ Name := name } : ImageConfig))
    else (img, ({} : ImageConfig))
  let (img, imgOverride) :=
    if img.Tag = "" then
      ({ img with Tag := tag }, { imgOverride with Tag := tag })
    else (img, imgOverride)
  let (img, imgOverride) :=
    if img.PullPolicy = none then
      ({ img with PullPolicy := some defaultImagePullPolicy },
       { imgOverride with PullPolicy := some defaultImagePullPolicy })
    else (img, imgOverride)
  let img := if img.PullSecrets = none then { img with PullSecrets := some [] } else img
  ({ dca with Image := some img }, imgOverride)

/-- datadogagent_default.go DefaultExternalMetrics. -/
def DefaultExternalMetrics (conf : FeaturesConfigClusterAgent) :
    FeaturesConfigClusterAgent × ExternalMetricsConfig :=
  match conf.ExternalMetrics with
  | none =>
    let created : ExternalMetricsConfig := { Enabled := NewBoolPointer defaultExternalMetricsEnabled }
    if !(BoolValue created.Enabled) then
      ({ conf with ExternalMetrics := some created }, created)
    else
      -- fall through to the shared tail with the freshly created config
      let (em, extMetricsOverride) := (created, ({} : ExternalMetricsConfig))
      let (em, extMetricsOverride) :=
        if em.Port = none && BoolValue em.Enabled then
          ({ em with Port := NewInt32Pointer defaultMetricsProviderPort },
           { extMetricsOverride with Port := NewInt32Pointer defaultMetricsProviderPort })
        else (em, extMetricsOverride)
      ({ conf with ExternalMetrics := some em }, extMetricsOverride)
  | some em =>
    let (em, extMetricsOverride) :=
      if em.Enabled = none then
        ({ em with Enabled := NewBoolPointer true },
         ({ Enabled := NewBoolPointer true } : ExternalMetricsConfig))
      else (em, ({} : ExternalMetricsConfig))
    let (em, extMetricsOverride) :=
      if em.Port = none && BoolValue em.Enabled then
        ({ em with Port := NewInt32Pointer defaultMetricsProviderPort },
         { extMetricsOverride with Port := NewInt32Pointer defaultMetricsProviderPort })
      else (em, extMetricsOverride)
    ({ conf with ExternalMetrics := some em }, extMetricsOverride)

/-- datadogagent_default.go DefaultAdmissionController. -/
def DefaultAdmissionController (conf : FeaturesConfigClusterAgent) :
    FeaturesConfigClusterAgent × AdmissionControllerConfig :=
  match conf.AdmissionController with
  | none =>
    let created : AdmissionControllerConfig :=
      { Enabled := NewBoolPointer defaultAdmissionControllerEnabled }
    if !(BoolValue created.Enabled) then
      ({ conf with AdmissionController := some created }, created)
    else
      let (adm, admCtrlOverride) := (created, ({} : AdmissionControllerConfig))
      let (adm, admCtrlOverride) :=
        if adm.MutateUnlabelled = none then
          ({ adm with MutateUnlabelled := NewBoolPointer defaultMutateUnlabelled },
           { admCtrlOverride with MutateUnlabelled := NewBoolPointer defaultMutateUnlabelled })
        else (adm, admCtrlOverride)
      let (adm, admCtrlOverride) :=
        if adm.ServiceName = none then
          ({ adm with ServiceName := NewStringPointer DefaultAdmissionServiceName },
           { admCtrlOverride with ServiceName := NewStringPointer DefaultAdmissionServiceName })
        else (adm, admCtrlOverride)
      ({ conf with AdmissionController := some adm }, admCtrlOverride)
  | some adm =>
    let (adm, admCtrlOverride) :=
      if adm.Enabled = none then
        ({ adm with Enabled := NewBoolPointer defaultAdmissionControllerEnabled },
         ({ Enabled := NewBoolPointer defaultAdmissionControllerEnabled } : AdmissionControllerConfig))
      else (adm, ({} : AdmissionControllerConfig))
    let (adm, admCtrlOverride) :=
      if adm.MutateUnlabelled = none then
        ({ adm with MutateUnlabelled := NewBoolPointer defaultMutateUnlabelled },
         { admCtrlOverride with MutateUnlabelled := NewBoolPointer defaultMutateUnlabelled })
      else (adm, admCtrlOverride)
    let (adm, admCtrlOverride) :=
      if adm.ServiceName = none then
        ({ adm with ServiceName := NewStringPointer DefaultAdmissionServiceName },
         { admCtrlOverride with ServiceName := NewStringPointer DefaultAdmissionServiceName })
      else (adm, admCtrlOverride)
    ({ conf with AdmissionController := some adm }, admCtrlOverride)

/-- datadogagent_default.go DefaultDatadogAgentSpecClusterAgentConfig.
Line 982 of the source tests CustomConfig (not Config) and rebuilds Config;
when CustomConfig is set while Config is nil, line 986 dereferences the nil
Config, embedded as `none`. -/
def DefaultDatadogAgentSpecClusterAgentConfig (dca : DatadogAgentSpecClusterAgentSpec) :
    Option (DatadogAgentSpecClusterAgentSpec × ClusterAgentConfig) :=
  let dca :=
    if dca.CustomConfig = none then { dca with Config := some {} } else dca
  match dca.Config with
  | none => none
  | some cfg =>
    let (cfg, configOverride) :=
      if cfg.ContainerConfig.LogLevel = none then
        let v := NewStringPointer defaultLogLevel
        ({ cfg with ContainerConfig := { cfg.ContainerConfig with LogLevel := v } },
         ({ ContainerConfig := { LogLevel := v } } : ClusterAgentConfig))
      else (cfg, ({} : ClusterAgentConfig))
    let (fts, extMetricsOverride) := DefaultExternalMetrics cfg.Features
    let cfg := { cfg with Features := fts }
    let configOverride :=
      if !(IsEqualStruct extMetricsOverride ({} : ExternalMetricsConfig)) then
        { configOverride with Features := { configOverride.Features with ExternalMetrics := some extMetricsOverride } }
      else configOverride
    let (cfg, configOverride) :=
      if cfg.Features.ClusterChecksEnabled = none then
        let v := NewBoolPointer defaultClusterChecksEnabled
        ({ cfg with Features := { cfg.Features with ClusterChecksEnabled := v } },
         { configOverride with Features := { configOverride.Features with ClusterChecksEnabled := v } })
      else (cfg, configOverride)
    let (cfg, configOverride) :=
      if cfg.Features.CollectEvents = none then
        let v := NewBoolPointer defaultCollectEvents
        ({ cfg with Features := { cfg.Features with CollectEvents := v } },
         { configOverride with Features := { configOverride.Features with CollectEvents := v } })
      else (cfg, configOverride)
    let (fts, admCtrlOverride) := DefaultAdmissionController cfg.Features
    let cfg := { cfg with Features := fts }
    let configOverride :=
      if !(IsEqualStruct admCtrlOverride ({} : AdmissionControllerConfig)) then
        { configOverride with Features := { configOverride.Features with AdmissionController := some admCtrlOverride } }
      else configOverride
    let cfg :=
      if cfg.ContainerConfig.Resources = none then
        { cfg with ContainerConfig := { cfg.ContainerConfig with Resources := some () } }
      else cfg
    let (cfg, configOverride) :=
      if cfg.ContainerConfig.HealthPort = none then
        let v := NewInt32Pointer defaultAgentHealthPort
        ({ cfg with ContainerConfig := { cfg.ContainerConfig with HealthPort := v } },
         { configOverride with ContainerConfig := { configOverride.ContainerConfig with HealthPort := v } })
      else (cfg, configOverride)
    some ({ dca with Config := some cfg }, configOverride)

/-- datadogagent_default.go DefaultDatadogAgentSpecClusterAgent. -/
def DefaultDatadogAgentSpecClusterAgent (clusterAgent : DatadogAgentSpecClusterAgentSpec) :
    Option (DatadogAgentSpecClusterAgentSpec × DatadogAgentSpecClusterAgentSpec) :=
  let isEmpty := IsEqualStruct clusterAgent ({} : DatadogAgentSpecClusterAgentSpec)
  let clusterAgent :=
    if isEmpty then { clusterAgent with Enabled := NewBoolPointer defaultClusterAgentEnabled }
    else clusterAgent
  if isEmpty && !(BoolValue clusterAgent.Enabled) then
    some (clusterAgent, clusterAgent)
  else
    let (clusterAgent, clusterAgentOverride) :=
      if clusterAgent.Enabled = none then
        ({ clusterAgent with Enabled := NewBoolPointer defaultClusterAgentEnabled },
         ({ Enabled := NewBoolPointer defaultClusterAgentEnabled } : DatadogAgentSpecClusterAgentSpec))
      else (clusterAgent, ({} : DatadogAgentSpecClusterAgentSpec))
    if !(BoolValue clusterAgent.Enabled) then
      some (clusterAgent, clusterAgentOverride)
    else
      let clusterAgent :=
        if clusterAgent.Image = none then { clusterAgent with Image := some {} } else clusterAgent
      let (clusterAgent, img) :=
        DefaultDatadogClusterAgentImage clusterAgent defaultClusterAgentImageName defaultClusterAgentImageTag
      let clusterAgentOverride :=
        if !(IsEqualStruct img ({} : ImageConfig)) then
          { clusterAgentOverride with Image := some img }
        else clusterAgentOverride
      match DefaultDatadogAgentSpecClusterAgentConfig clusterAgent with
      | none => none
      | some (clusterAgent, cfg) =>
        let clusterAgentOverride :=
          if !(IsEqualStruct cfg ({} : ClusterAgentConfig)) then
            { clusterAgentOverride with Config := some cfg }
          else clusterAgentOverride
        let (clusterAgent, rbac) := DefaultDatadogClusterAgentSpecRbacConfig clusterAgent
        let clusterAgentOverride :=
          if !(IsEqualStruct rbac ({} : RbacConfig)) then
            { clusterAgentOverride with Rbac := some rbac }
          else clusterAgentOverride
        let (clusterAgent, net) := DefaultClusterAgentNetworkPolicy clusterAgent
        let clusterAgentOverride :=
          if !(IsEqualStruct net ({} : NetworkPolicySpec)) then
            { clusterAgentOverride with NetworkPolicy := some net }
          else clusterAgentOverride
        some (clusterAgent, clusterAgentOverride)

/-- datadogagent_default.go DefaultDatadogAgentSpecClusterChecksRunnerImage. -/
def DefaultDatadogAgentSpecClusterChecksRunnerImage
    (clc : DatadogAgentSpecClusterChecksRunnerSpec) (name tag : String) :
    DatadogAgentSpecClusterChecksRunnerSpec × ImageConfig :=
  let img := clc.Image.getD {}
  let (img, imgOverride) :=
    if img.Name = "" then
      ({ img with Name := name }, ({ Name := name } : ImageConfig))
    else (img, ({} : ImageConfig))
  let (img, imgOverride) :=
    if img.Tag = "" then
      ({ img with Tag := tag }, { imgOverride with Tag := tag })
    else (img, imgOverride)
  let (img, imgOverride) :=
    if img.PullPolicy = none then
      ({ img with PullPolicy := some defaultImagePullPolicy },
       { imgOverride with PullPolicy := some defaultImagePullPolicy })
    else (img, imgOverride)
  let img := if img.PullSecrets = none then { img with PullSecrets := some [] } else img
  ({ clc with Image := some img }, imgOverride)

/-- datadogagent_default.go DefaultDatadogAgentSpecClusterChecksRunnerConfig. -/
def DefaultDatadogAgentSpecClusterChecksRunnerConfig
    (clc : DatadogAgentSpecClusterChecksRunnerSpec) :
    DatadogAgentSpecClusterChecksRunnerSpec × DatadogAgentGenericContainerConfig :=
  let cc := clc.ContainerConfig.getD {}
  let (cc, configOverride) :=
    if cc.LogLevel = none then
      ({ cc with LogLevel := NewStringPointer defaultLogLevel },
       ({ LogLevel := NewStringPointer defaultLogLevel } : DatadogAgentGenericContainerConfig))
    else (cc, ({} : DatadogAgentGenericContainerConfig))
  let (cc, configOverride) :=
    if cc.LivenessProbe = none then
      ({ cc with LivenessProbe := some GetDefaultLivenessProbe },
       { configOverride with LivenessProbe := some GetDefaultLivenessProbe })
    else (cc, configOverride)
  let (cc, configOverride) :=
    if cc.ReadinessProbe = none then
      ({ cc with ReadinessProbe := some GetDefaultReadinessProbe },
       { configOverride with ReadinessProbe := some GetDefaultReadinessProbe })
    else (cc, configOverride)
  let (cc, configOverride) :=
    if cc.HealthPort = none then
      ({ cc with HealthPort := NewInt32Pointer defaultAgentHealthPort },
       { configOverride with HealthPort := NewInt32Pointer defaultAgentHealthPort })
    else (cc, configOverride)
  let cc := if cc.Resources = none then { cc with Resources := some () } else cc
  ({ clc with ContainerConfig := some cc }, configOverride)

/-- datadogagent_default.go DefaultDatadogAgentSpecClusterChecksRunner. -/
def DefaultDatadogAgentSpecClusterChecksRunner
    (clusterChecksRunner : DatadogAgentSpecClusterChecksRunnerSpec) :
    DatadogAgentSpecClusterChecksRunnerSpec × DatadogAgentSpecClusterChecksRunnerSpec :=
  let isEmpty := IsEqualStruct clusterChecksRunner ({} : DatadogAgentSpecClusterChecksRunnerSpec)
  let clusterChecksRunner :=
    if isEmpty then
      { clusterChecksRunner with Enabled := NewBoolPointer defaultClusterChecksRunnerEnabled }
    else clusterChecksRunner
  if isEmpty && !(BoolValue clusterChecksRunner.Enabled) then
    (clusterChecksRunner, clusterChecksRunner)
  else
    let (clusterChecksRunner, clcOverride) :=
      if clusterChecksRunner.Enabled = none then
        ({ clusterChecksRunner with Enabled := NewBoolPointer true },
         ({ Enabled := NewBoolPointer true } : DatadogAgentSpecClusterChecksRunnerSpec))
      else (clusterChecksRunner, ({} : DatadogAgentSpecClusterChecksRunnerSpec))
    let (clusterChecksRunner, img) :=
      DefaultDatadogAgentSpecClusterChecksRunnerImage clusterChecksRunner
        defaultAgentImageName defaultAgentImageTag
    let clcOverride :=
      if !(IsEqualStruct img ({} : ImageConfig)) then
        { clcOverride with Image := some img }
      else clcOverride
    let (clusterChecksRunner, cfg) :=
      DefaultDatadogAgentSpecClusterChecksRunnerConfig clusterChecksRunner
    let clcOverride :=
      if !(IsEqualStruct cfg ({} : DatadogAgentGenericContainerConfig)) then
        { clcOverride with ContainerConfig := some cfg }
      else clcOverride
    let (clusterChecksRunner, rbac) :=
      DefaultDatadogClusterCheckRunnerSpecRbacConfig clusterChecksRunner
    let clcOverride :=
      if !(IsEqualStruct rbac ({} : RbacConfig)) then
        { clcOverride with Rbac := some rbac }
      else clcOverride
    let (clusterChecksRunner, net) :=
      DefaultClusterCheckRunnerNetworkPolicy clusterChecksRunner
    let clcOverride :=
      if !(IsEqualStruct net ({} : NetworkPolicySpec)) then
        { clcOverride with NetworkPolicy := some net }
      else clcOverride
    (clusterChecksRunner, clcOverride)

/-- datadogagent_default.go FeatureOverride (lines 147-163).
The source guards with `dda.Agent.SystemProbe != nil` (resp.
`dda.Agent.Process != nil`) and then assigns through the pointer, so the
branch taken when the agent's Enabled flag is not true while the subtree is
nil dereferences a nil pointer: embedded as `none`. -/
def FeatureOverride (dda dso : DatadogAgentSpec) : Option (DatadogAgentSpec × DatadogAgentSpec) :=
  let step1 : Option (DatadogAgentSpec × DatadogAgentSpec) :=
    match dda.Features.NetworkMonitoring with
    | some nm =>
      if BoolValue nm.Enabled then
        if !(BoolValue dda.Agent.Enabled) || dda.Agent.SystemProbe ≠ none then
          match dda.Agent.SystemProbe with
          | none => none
          | some sp =>
            let agent := { dda.Agent with SystemProbe := some { sp with Enabled := NewBoolPointer true } }
            let (agent, spOverride) := DefaultDatadogAgentSpecAgentSystemProbe agent
            let dso :=
              { dso with Agent := { dso.Agent with SystemProbe := some { spOverride with Enabled := NewBoolPointer true } } }
            some ({ dda with Agent := agent }, dso)
        else some (dda, dso)
      else some (dda, dso)
    | none => some (dda, dso)
  match step1 with
  | none => none
  | some (dda, dso) =>
    match dda.Features.OrchestratorExplorer with
    | some oe =>
      if BoolValue oe.Enabled then
        if !(BoolValue dda.Agent.Enabled) || dda.Agent.Process ≠ none then
          match dda.Agent.Process with
          | none => none
          | some proc =>
            let agent := { dda.Agent with Process := some { proc with Enabled := NewBoolPointer true } }
            let (agent, procOverride) := DefaultDatadogAgentSpecAgentProcess agent
            let dso :=
              { dso with Agent := { dso.Agent with Process := some { procOverride with Enabled := NewBoolPointer true } } }
            some ({ dda with Agent := agent }, dso)
        else some (dda, dso)
      else some (dda, dso)
    | none => some (dda, dso)

/-- datadogagent_default.go DefaultDatadogAgent. Returns the defaulted
object together with the status carrying the override shadow; `none` when
any step of the source would panic on a nil dereference. -/
def DefaultDatadogAgent (dda : DatadogAgent) : Option (DatadogAgent × DatadogAgentStatus) :=
  match FeatureOverride dda.Spec ({} : DatadogAgentSpec) with
  | none => none
  | some (spec, defaultOverride) =>
    let dda := { dda with Spec := spec }
    match DefaultFeatures dda with
    | none => none
    | some (dda, ftOverride) =>
      let defaultOverride := { defaultOverride with Features := ftOverride }
      match DefaultDatadogAgentSpecClusterAgent dda.Spec.ClusterAgent with
      | none => none
      | some (clusterAgent, caOverride) =>
        let dda := { dda with Spec := { dda.Spec with ClusterAgent := clusterAgent } }
        let defaultOverride := { defaultOverride with ClusterAgent := caOverride }
        match DefaultDatadogAgentSpecAgent dda.Spec.Agent with
        | none => none
        | some (agent, agentOverride) =>
          let dda := { dda with Spec := { dda.Spec with Agent := agent } }
          let defaultOverride := { defaultOverride with Agent := agentOverride }
          let (clc, clcOverride) :=
            DefaultDatadogAgentSpecClusterChecksRunner dda.Spec.ClusterChecksRunner
          let dda := { dda with Spec := { dda.Spec with ClusterChecksRunner := clc } }
          let defaultOverride := { defaultOverride with ClusterChecksRunner := clcOverride }
          let creds := dda.Spec.Credentials.getD {}
          let (creds, defaultOverride) :=
            if creds.UseSecretBackend = none then
              ({ creds with UseSecretBackend := NewBoolPointer false },
               { defaultOverride with Credentials := some { UseSecretBackend := NewBoolPointer false } })
            else (creds, defaultOverride)
          let dda := { dda with Spec := { dda.Spec with Credentials := some creds } }
          some (dda, { DefaultOverride := some defaultOverride })

/-! ## Helper lemmas -/

theorem mergeEnabled_assoc :
    ∀ a b c : Option Bool, mergeEnabled (mergeEnabled a b) c = mergeEnabled a (mergeEnabled b c) := by
  decide

theorem mergeEnabled_comm : ∀ a b : Option Bool, mergeEnabled a b = mergeEnabled b a := by
  decide

theorem mergeEnabled_eq_true_iff :
    ∀ a b : Option Bool, (mergeEnabled a b = some true ↔ (a = some true ∨ b = some true)) := by
  decide

theorem mergeEnabled_eq_false_iff :
    ∀ a b : Option Bool,
      (mergeEnabled a b = some false ↔
        (¬(a = some true ∨ b = some true) ∧ (a = some false ∨ b = some false))) := by
  decide

theorem mergeEnabled_eq_none_iff :
    ∀ a b : Option Bool, (mergeEnabled a b = none ↔ (a = none ∧ b = none)) := by
  decide

theorem RequiredComponent.merge_assoc (x y z : RequiredComponent) :
    (x.merge y).merge z = x.merge (y.merge z) := by
  simp [RequiredComponent.merge, mergeEnabled_assoc, Bool.or_assoc]

theorem RequiredComponent.merge_comm (x y : RequiredComponent) :
    x.merge y = y.merge x := by
  simp [RequiredComponent.merge, mergeEnabled_comm, Bool.or_comm]

theorem buildStep_useMPC (env : IDType → Bool → RequiredComponents) (st : BuildState)
    (id : IDType) :
    (buildStep env st id).useMPC =
      (st.useMPC && !(shouldDisableMultiProcessContainer (env id st.useMPC))) := by
  simp only [buildStep]
  cases hd : shouldDisableMultiProcessContainer (env id st.useMPC) <;>
    cases hm : st.useMPC <;> simp [hd, hm]

theorem buildStep_output (env : IDType → Bool → RequiredComponents) (st : BuildState)
    (id : IDType) :
    (buildStep env st id).output =
      if (env id st.useMPC).IsConfigured then st.output ++ [id] else st.output := rfl

theorem buildLoop_cons (env : IDType → Bool → RequiredComponents) (x : IDType)
    (l : List IDType) (st : BuildState) :
    buildLoop env (x :: l) st = buildLoop env l (buildStep env st x) := rfl

theorem buildLoop_append (env : IDType → Bool → RequiredComponents) (l₁ l₂ : List IDType)
    (st : BuildState) :
    buildLoop env (l₁ ++ l₂) st = buildLoop env l₂ (buildLoop env l₁ st) := by
  simp [buildLoop, List.foldl_append]

theorem buildLoop_useMPC_mono (env : IDType → Bool → RequiredComponents) (l : List IDType)
    (st : BuildState) : (buildLoop env l st).useMPC = true → st.useMPC = true := by
  induction l generalizing st with
  | nil => exact fun h => h
  | cons x t ih =>
    intro h
    have h2 := ih (buildStep env st x) h
    rw [buildStep_useMPC] at h2
    cases hm : st.useMPC
    · rw [hm] at h2
      simp at h2
    · rfl

theorem buildLoop_output_extends (env : IDType → Bool → RequiredComponents) (l : List IDType)
    (st : BuildState) :
    ∃ t, (buildLoop env l st).output = st.output ++ t ∧ t.Sublist l := by
  induction l generalizing st with
  | nil => exact ⟨[], by simp [buildLoop], List.Sublist.refl []⟩
  | cons x t ih =>
    obtain ⟨u, hu, hsub⟩ := ih (buildStep env st x)
    rw [buildLoop_cons]
    by_cases hc : (env x st.useMPC).IsConfigured = true
    · refine ⟨x :: u, ?_, List.Sublist.cons₂ x hsub⟩
      rw [hu, buildStep_output, if_pos hc]
      simp
    · refine ⟨u, ?_, List.Sublist.cons x hsub⟩
      rw [hu, buildStep_output, if_neg hc]

theorem charListLeb_total (a b : List Char) :
    charListLeb a b = true ∨ charListLeb b a = true := by
  induction a generalizing b with
  | nil => exact Or.inl rfl
  | cons x xs ih =>
    cases b with
    | nil => exact Or.inr rfl
    | cons y ys =>
      by_cases h1 : x.toNat < y.toNat
      · exact Or.inl (by simp [charListLeb, h1])
      · by_cases h2 : y.toNat < x.toNat
        · exact Or.inr (by simp [charListLeb, h2])
        · cases ih ys with
          | inl h => exact Or.inl (by simp [charListLeb, h1, h2, h])
          | inr h => exact Or.inr (by simp [charListLeb, h1, h2, h])

theorem charListLeb_trans (a b c : List Char) (h1 : charListLeb a b = true)
    (h2 : charListLeb b c = true) : charListLeb a c = true := by
  induction a generalizing b c with
  | nil => rfl
  | cons x xs ih =>
    cases b with
    | nil => simp [charListLeb] at h1
    | cons y ys =>
      cases c with
      | nil => simp [charListLeb] at h2
      | cons z zs =>
        simp only [charListLeb] at h1 h2 ⊢
        by_cases hxy : x.toNat < y.toNat
        · by_cases hyz : y.toNat < z.toNat
          · simp [Nat.lt_trans hxy hyz]
          · by_cases hzy : z.toNat < y.toNat
            · simp [hyz, hzy] at h2
            · have hxz : x.toNat < z.toNat := by omega
              simp [hxz]
        · by_cases hyx : y.toNat < x.toNat
          · simp [hxy, hyx] at h1
          · by_cases hyz : y.toNat < z.toNat
            · have hxz : x.toNat < z.toNat := by omega
              simp [hxz]
            · by_cases hzy : z.toNat < y.toNat
              · simp [hyz, hzy] at h2
              · have hxz : ¬ x.toNat < z.toNat := by omega
                have hzx : ¬ z.toNat < x.toNat := by omega
                simp only [hxy, hyx, if_false] at h1
                simp only [hyz, hzy, if_false] at h2
                simp only [hxz, hzx, if_false]
                exact ih ys zs h1 h2

theorem idLeb_total (a b : IDType) : idLeb a b = true ∨ idLeb b a = true :=
  charListLeb_total a.data b.data

theorem idLeb_trans {a b c : IDType} (h1 : idLeb a b = true) (h2 : idLeb b c = true) :
    idLeb a c = true :=
  charListLeb_trans a.data b.data c.data h1 h2

theorem perm_insertID (x : IDType) (l : List IDType) : (insertID x l).Perm (x :: l) := by
  induction l with
  | nil => exact List.Perm.refl _
  | cons y ys ih =>
    simp only [insertID]
    by_cases h : idLeb x y = true
    · rw [if_pos h]
    · rw [if_neg h]
      exact ((ih.cons y).trans (List.Perm.swap x y ys))

theorem mem_insertID {z x : IDType} {l : List IDType} (h : z ∈ insertID x l) :
    z = x ∨ z ∈ l := by
  have := (perm_insertID x l).mem_iff.mp h
  simpa using this

theorem pairwise_insertID (x : IDType) (l : List IDType)
    (h : List.Pairwise (fun a b => idLeb a b = true) l) :
    List.Pairwise (fun a b => idLeb a b = true) (insertID x l) := by
  induction l with
  | nil => simp [insertID]
  | cons y ys ih =>
    simp only [insertID]
    rcases List.pairwise_cons.mp h with ⟨hy, hys⟩
    by_cases hxy : idLeb x y = true
    · rw [if_pos hxy]
      refine List.pairwise_cons.mpr ⟨?_, h⟩
      intro z hz
      rcases List.mem_cons.mp hz with rfl | hz
      · exact hxy
      · exact idLeb_trans hxy (hy z hz)
    · rw [if_neg hxy]
      have hyx : idLeb y x = true := (idLeb_total x y).resolve_left hxy
      refine List.pairwise_cons.mpr ⟨?_, ih hys⟩
      intro z hz
      rcases mem_insertID hz with rfl | hz
      · exact hyx
      · exact hy z hz

theorem perm_sortIDs (l : List IDType) : (sortIDs l).Perm l := by
  induction l with
  | nil => exact List.Perm.refl _
  | cons x xs ih =>
    exact (perm_insertID x (sortIDs xs)).trans (ih.cons x)

theorem pairwise_sortIDs (l : List IDType) :
    List.Pairwise (fun a b => idLeb a b = true) (sortIDs l) := by
  induction l with
  | nil => exact List.Pairwise.nil
  | cons x xs ih => exact pairwise_insertID x (sortIDs xs) ih

theorem mem_sortIDs_filter {x : IDType} {keys : List IDType}
    (h : x ∈ sortIDs (keys.filter (fun k => !(privilegedFeatures.contains k)))) :
    privilegedFeatures.contains x = false := by
  have hmem := (perm_sortIDs (keys.filter (fun k => !(privilegedFeatures.contains k)))).mem_iff.mp h
  have := List.of_mem_filter hmem
  simpa using this

/-! ## Claim theorems -/

/-- C9: For every registry state and identifier id, Register(id, constructor)
returns a duplicate-identifier error and leaves the registry mapping
unchanged when id is already registered, and otherwise stores the
constructor under id and returns no error (never a silent overwrite). -/
theorem Register_duplicate_contract (β : Type) (reg : List (IDType × β)) (id : IDType) (f : β) :
    ((reg.lookup id).isSome →
      (Register id f reg).1 = reg ∧ (Register id f reg).2 = some (duplicateFeatureErrorMessage id))
    ∧ (reg.lookup id = none →
      (Register id f reg).2 = none
      ∧ ((Register id f reg).1.lookup id) = some f
      ∧ ∀ j : IDType, j ≠ id → ((Register id f reg).1.lookup j) = reg.lookup j) := by
  constructor
  · intro h
    simp [Register, h]
  · intro h
    refine ⟨?_, ?_, ?_⟩
    · simp [Register, h]
    · simp [Register, h, List.lookup]
    · intro j hj
      simp [Register, h, List.lookup, beq_false_of_ne hj]

/-- C9 witness: at a concrete one-entry registry, registering the same
identifier again fails and leaves the registry unchanged, while a fresh
identifier is stored and retrievable. -/
theorem Register_duplicate_contract_witness :
    ((Register "procmon" (2 : Nat) [("procmon", 1)]).1 = [("procmon", 1)]
      ∧ (Register "procmon" (2 : Nat) [("procmon", 1)]).2 =
          some (duplicateFeatureErrorMessage "procmon"))
    ∧ (Register "logcol" (2 : Nat) [("procmon", 1)]).2 = none
    ∧ ((Register "logcol" (2 : Nat) [("procmon", 1)]).1.lookup "logcol") = some 2 := by
  refine ⟨(Register_duplicate_contract Nat [("procmon", 1)] "procmon" 2).1 (by decide), ?_, ?_⟩
  · exact ((Register_duplicate_contract Nat [("procmon", 1)] "logcol" 2).2 (by decide)).1
  · exact ((Register_duplicate_contract Nat [("procmon", 1)] "logcol" 2).2 (by decide)).2.1

/-- C6: the RequiredComponents merge is associative and commutative; per
ComponentKind the merged enabled tri-state is true iff either side is true,
false iff no side is true and at least one side is explicitly false,
unspecified iff both sides are unspecified, and privileged is the
disjunction of both sides — so once a component is enabled or privileged a
later merge never unmarks it. -/
theorem RequiredComponents_Merge_algebra (A B C : RequiredComponents) (k : ComponentKind) :
    ((A.Merge B).Merge C = A.Merge (B.Merge C))
    ∧ (A.Merge B = B.Merge A)
    ∧ (((A.Merge B).get k).IsRequired = some true ↔
        ((A.get k).IsRequired = some true ∨ (B.get k).IsRequired = some true))
    ∧ (((A.Merge B).get k).IsRequired = some false ↔
        (¬((A.get k).IsRequired = some true ∨ (B.get k).IsRequired = some true)
          ∧ ((A.get k).IsRequired = some false ∨ (B.get k).IsRequired = some false)))
    ∧ (((A.Merge B).get k).IsRequired = none ↔
        ((A.get k).IsRequired = none ∧ (B.get k).IsRequired = none))
    ∧ (((A.Merge B).get k).Privileged = ((A.get k).Privileged || (B.get k).Privileged)) := by
  refine ⟨?_, ?_, ?_, ?_, ?_, ?_⟩
  · simp [RequiredComponents.Merge, RequiredComponent.merge_assoc]
  · simp [RequiredComponents.Merge, RequiredComponent.merge_comm]
  · cases k <;>
      exact mergeEnabled_eq_true_iff _ _
  · cases k <;>
      exact mergeEnabled_eq_false_iff _ _
  · cases k <;>
      exact mergeEnabled_eq_none_iff _ _
  · cases k <;> rfl

/-- C6 witness: a concrete instance of commutativity, with one side marking
the agent enabled and privileged and the other marking it explicitly
disabled. -/
theorem RequiredComponents_Merge_algebra_witness :
    ({ Agent := { IsRequired := some true, Privileged := true } } : RequiredComponents).Merge
        { Agent := { IsRequired := some false } } =
      ({ Agent := { IsRequired := some false } } : RequiredComponents).Merge
        { Agent := { IsRequired := some true, Privileged := true } } := by
  exact (RequiredComponents_Merge_algebra
    { Agent := { IsRequired := some true, Privileged := true } }
    { Agent := { IsRequired := some false } } {} ComponentKind.nodeAgent).2.1

/-- C4: in the BuildFeatures loop, after processing one more feature the
multi-process flag equals the previous flag conjoined with the negation of
the just-computed disable condition (so it is cleared exactly when the
feature's requirement reports the node agent enabled and privileged); the
flag never transitions from off back to on across any prefix of the
iteration; and the returned feature order is a sublist of the iteration
order computed once, at the start of the call, from the initial flag. -/
theorem BuildFeatures_multiProcess_flag_dynamics
    (env : IDType → Bool → RequiredComponents) (st : BuildState)
    (ids l₁ l₂ : List IDType) (x : IDType) (keys : List IDType)
    (dda : V2DatadogAgentSpec) :
    ((buildLoop env (ids ++ [x]) st).useMPC =
      ((buildLoop env ids st).useMPC &&
        !(shouldDisableMultiProcessContainer (env x (buildLoop env ids st).useMPC))))
    ∧ ((buildLoop env (l₁ ++ l₂) st).useMPC = true → (buildLoop env l₁ st).useMPC = true)
    ∧ (BuildFeatures keys env dda).1.Sublist
        (getSortedFeatureIDs keys (useMultiProcessContainerOf dda)) := by
  refine ⟨?_, ?_, ?_⟩
  · rw [buildLoop_append]
    exact buildStep_useMPC env (buildLoop env ids st) x
  · intro h
    rw [buildLoop_append] at h
    exact buildLoop_useMPC_mono env l₂ (buildLoop env l₁ st) h
  · obtain ⟨t, ht, hsub⟩ :=
      buildLoop_output_extends env
        (getSortedFeatureIDs keys (useMultiProcessContainerOf dda))
        { useMPC := useMultiProcessContainerOf dda }
    have : (BuildFeatures keys env dda).1 = t := by
      simpa [BuildFeatures] using ht
    rw [this]
    exact hsub

/-- C5 counterexample: with the registry holding exactly the six privileged
features and multi-process mode requested, the iteration order is the
privileged block alone, in declaration order — and that block is not sorted
ascending (CSPM and CWS come after the EBPF check identifier), refuting the
claim that the trailing privileged block is sorted within itself. -/
theorem getSortedFeatureIDs_trailing_block_not_sorted :
    ¬ List.Pairwise (fun a b => idLeb a b = true)
        (getSortedFeatureIDs privilegedFeatures true) := by
  decide

/-- C5 (amended): without multi-process mode the order is all registered
identifiers sorted ascending; with multi-process mode the order is the
non-privileged registered identifiers sorted ascending, followed by the six
privileged identifiers as a fixed trailing block in declaration order
(EBPF check, CWS, CSPM, OOM-kill, TCP-queue-length, USM) — not re-sorted —
so every privileged identifier appears after every non-privileged one. -/
theorem getSortedFeatureIDs_privileged_block_order (keys : List IDType) :
    (List.Pairwise (fun a b => idLeb a b = true) (getSortedFeatureIDs keys false)
      ∧ (getSortedFeatureIDs keys false).Perm keys)
    ∧ (∃ ns, getSortedFeatureIDs keys true = ns ++ privilegedFeatures
        ∧ List.Pairwise (fun a b => idLeb a b = true) ns
        ∧ ns.Perm (keys.filter (fun k => !(privilegedFeatures.contains k)))
        ∧ ∀ x ∈ ns, x ∉ privilegedFeatures)
    ∧ ∀ (i j : Nat) (hi : i < (getSortedFeatureIDs keys true).length)
        (hj : j < (getSortedFeatureIDs keys true).length),
        (getSortedFeatureIDs keys true).get ⟨i, hi⟩ ∈ privilegedFeatures →
        (getSortedFeatureIDs keys true).get ⟨j, hj⟩ ∉ privilegedFeatures → j < i := by
  have horder : getSortedFeatureIDs keys true =
      sortIDs (keys.filter (fun k => !(privilegedFeatures.contains k))) ++ privilegedFeatures := by
    simp [getSortedFeatureIDs]
  have hns : ∀ x ∈ sortIDs (keys.filter (fun k => !(privilegedFeatures.contains k))),
      x ∉ privilegedFeatures := by
    intro x hx hmem
    have hc := mem_sortIDs_filter hx
    rw [List.contains_eq_any_beq] at hc
    have : privilegedFeatures.any (fun y => x == y) = true := by
      apply List.any_eq_true.mpr
      exact ⟨x, hmem, by simp⟩
    rw [this] at hc
    cases hc
  refine ⟨⟨?_, ?_⟩, ⟨_, horder, pairwise_sortIDs _, perm_sortIDs _, hns⟩, ?_⟩
  · simpa [getSortedFeatureIDs] using pairwise_sortIDs keys
  · simpa [getSortedFeatureIDs] using perm_sortIDs keys
  · intro i j hi hj hpi hpj
    set ns := sortIDs (keys.filter (fun k => !(privilegedFeatures.contains k))) with hnsdef
    have hi2 : i < (ns ++ privilegedFeatures).length := by rw [← horder]; exact hi
    have hj2 : j < (ns ++ privilegedFeatures).length := by rw [← horder]; exact hj
    have hgi : (getSortedFeatureIDs keys true).get ⟨i, hi⟩ = (ns ++ privilegedFeatures).get ⟨i, hi2⟩ := by
      congr 1
    have hgj : (getSortedFeatureIDs keys true).get ⟨j, hj⟩ = (ns ++ privilegedFeatures).get ⟨j, hj2⟩ := by
      congr 1
    rw [hgi] at hpi
    rw [hgj] at hpj
    have hilen : ¬ i < ns.length := by
      intro hlt
      have : (ns ++ privilegedFeatures).get ⟨i, hi2⟩ ∈ ns := by
        rw [List.get_eq_getElem, List.getElem_append_left hlt]
        exact List.getElem_mem hlt
      exact hns _ this hpi
    have hjlen : j < ns.length := by
      by_contra hge
      apply hpj
      have hge2 : ns.length ≤ j := Nat.le_of_not_lt hge
      rw [List.get_eq_getElem, List.getElem_append_right hge2]
      apply List.getElem_mem
    omega

/-- C5 witness: concrete instantiation with a one-feature registry; the
non-privileged identifier sorts first and every privileged identifier sits
strictly after it. -/
theorem getSortedFeatureIDs_privileged_block_order_witness :
    ((getSortedFeatureIDs ["admission"] true = ["admission"] ++ privilegedFeatures)
      ∧ (0 : Nat) < 1) := by
  constructor
  · decide
  · exact (getSortedFeatureIDs_privileged_block_order ["admission"]).2.2 1 0
      (by decide) (by decide) (by decide) (by decide)

/-- C4 witness: concrete instantiation; with a single feature that declares
no requirement the flag stays on across the iteration, and the output is a
sublist of the precomputed order. -/
theorem BuildFeatures_multiProcess_flag_dynamics_witness :
    (buildLoop (fun _ _ => ({} : RequiredComponents)) [USMIDType]
        { useMPC := true }).useMPC = true := by
  exact (BuildFeatures_multiProcess_flag_dynamics (fun _ _ => ({} : RequiredComponents))
    { useMPC := true } [] [USMIDType] [] USMIDType [] {}).2.1 (by decide)

/-- C1: for the empty desired-state spec, DefaultDatadogAgent yields the
node agent enabled with image name agent, tag 7.28.0, health port 5555,
liveness probe path /live and readiness probe path /ready; the cluster
agent enabled with image name cluster-agent and tag 1.12.0; and the
cluster-check runner disabled. -/
theorem DefaultDatadogAgent_empty_spec_scenario :
    ((DefaultDatadogAgent {}).map fun p => p.1.Spec.Agent.Enabled) = some (some true)
    ∧ ((DefaultDatadogAgent {}).map fun p => p.1.Spec.Agent.Image.map fun i => (i.Name, i.Tag)) =
        some (some (defaultAgentImageName, defaultAgentImageTag))
    ∧ ((DefaultDatadogAgent {}).map fun p =>
        p.1.Spec.Agent.NodeAgent.map fun na => na.ContainerConfig.HealthPort) =
        some (some (some defaultAgentHealthPort))
    ∧ ((DefaultDatadogAgent {}).map fun p =>
        p.1.Spec.Agent.NodeAgent.map fun na =>
          na.ContainerConfig.LivenessProbe.bind fun pr => pr.HTTPGet.map fun h => h.Path) =
        some (some (some defaultLivenessProbeHTTPPath))
    ∧ ((DefaultDatadogAgent {}).map fun p =>
        p.1.Spec.Agent.NodeAgent.map fun na =>
          na.ContainerConfig.ReadinessProbe.bind fun pr => pr.HTTPGet.map fun h => h.Path) =
        some (some (some defaultReadinessProbeHTTPPath))
    ∧ ((DefaultDatadogAgent {}).map fun p => p.1.Spec.ClusterAgent.Enabled) = some (some true)
    ∧ ((DefaultDatadogAgent {}).map fun p =>
        p.1.Spec.ClusterAgent.Image.map fun i => (i.Name, i.Tag)) =
        some (some (defaultClusterAgentImageName, defaultClusterAgentImageTag))
    ∧ ((DefaultDatadogAgent {}).map fun p => p.1.Spec.ClusterChecksRunner.Enabled) =
        some (some false) := by
  refine ⟨by decide, by decide, by decide, by decide, by decide, by decide, by decide, by decide⟩

/-- C2 (code bug): with network monitoring requested enabled and the
system-probe subtree entirely absent, FeatureOverride never force-enables
the system probe: when the agent's Enabled flag is not true the guard
`!= nil` admits the branch and the source dereferences the nil SystemProbe
pointer (embedded as `none`); when the agent is explicitly enabled the
branch is skipped and the subtree stays absent. -/
theorem FeatureOverride_networkMonitoring_systemProbe_not_forced :
    FeatureOverride
      { Features := { NetworkMonitoring := some { Enabled := some true } } } {} = none
    ∧ ((FeatureOverride
        { Agent := { Enabled := some true }
          Features := { NetworkMonitoring := some { Enabled := some true } } } {}).map fun p =>
            p.1.Agent.SystemProbe) = some none := by
  exact ⟨by decide, by decide⟩

/-- C3 (code bug): the agent-config defaulter assigns the LogLevel default
into the spec but records nothing in the override shadow (the source
assigns the spec field to itself at line 309 instead of the shadow field);
and the cluster-agent config defaulter tests CustomConfig instead of Config
at line 982, so with CustomConfig unset it rebuilds Config, wiping a
user-set field, re-defaulting it, and recording it in the shadow. -/
theorem defaulting_shadow_completeness_violated :
    ((DefaultDatadogAgentSpecAgentConfig
        { Enabled := some true
          Image := some { Name := defaultAgentImageName, Tag := defaultAgentImageTag } }).map
      fun p => ((p.1.NodeAgent.map fun na => na.ContainerConfig.LogLevel),
                p.2.ContainerConfig.LogLevel)) =
      some (some (some defaultLogLevel), none)
    ∧ ((DefaultDatadogAgentSpecClusterAgentConfig
        { Config := some { Features := { ClusterChecksEnabled := some true } } }).map
      fun p => ((p.1.Config.map fun c => c.Features.ClusterChecksEnabled),
                p.2.Features.ClusterChecksEnabled)) =
      some (some (some false), some false) := by
  exact ⟨by decide, by decide⟩

/-- C7 counterexample: defaulting is not idempotent. On the empty spec the
second run returns a non-empty OverrideShadow (the feature subtrees
republish their resolved Enabled flags and the cluster-agent config section
is rebuilt) and even changes the spec: the cross-feature forcing of
FeatureOverride only fires on the rerun, once the orchestrator-explorer
default (enabled) is in place, so the second run turns Process.Enabled on. -/
theorem defaulting_not_idempotent_on_empty_spec :
    ((((DefaultDatadogAgent {}).bind fun p => DefaultDatadogAgent p.1).map fun q =>
        decide (q.2.DefaultOverride = some ({} : DatadogAgentSpec))) = some false)
    ∧ (((DefaultDatadogAgent {}).bind fun p =>
        (DefaultDatadogAgent p.1).map fun q => decide (q.1 = p.1)) = some false) := by
  exact ⟨by decide, by decide⟩

/-- C7 (amended): a second defaulting run can still change the spec (the
cross-feature forcing applies only once the feature defaults are in place)
and republishes the feature-level Enabled flags and the rebuilt
cluster-agent config in its shadow, so the second-run shadow is not empty;
the spec reaches a fixed point after two runs — verified on the empty spec:
a third run leaves the twice-defaulted spec unchanged, while its shadow
still republishes the feature and cluster-agent sections (the agent section
shadow is empty). -/
theorem defaulting_stabilizes_after_second_run :
    ((((DefaultDatadogAgent {}).bind fun p => DefaultDatadogAgent p.1).bind fun q =>
        (DefaultDatadogAgent q.1).map fun r => decide (r.1 = q.1)) = some true)
    ∧ ((((DefaultDatadogAgent {}).bind fun p => DefaultDatadogAgent p.1).map fun q =>
        q.2.DefaultOverride.map fun d => decide (d.Agent = ({} : DatadogAgentSpecAgentSpec)
          ∧ ¬ d.Features = ({} : DatadogFeatures)
          ∧ ¬ d.ClusterAgent = ({} : DatadogAgentSpecClusterAgentSpec))) = some (some true)) := by
  exact ⟨by decide, by decide⟩

/-- C8: the CRI/Docker socket default is applied exactly when the resolved
agent image tag (extracted from the image name, with any -jmx suffix
stripped) is neither the literal latest nor a released version at or above
the 7.27.0 / 6.27.0 thresholds; an unparsable tag makes IsAboveMinVersion
false, so the conservative older-style socket default is applied rather
than an error being raised. -/
theorem criSocket_default_version_gate (name : String) :
    (∀ t m : String, parseVersion t = none → IsAboveMinVersion t m = false)
    ∧ ((DefaultDatadogAgentSpecAgentConfig
          { Enabled := some true, Image := some { Name := name } }).map fun p =>
            p.1.NodeAgent.bind fun na => na.CriSocket) =
        some (if (trimSuffix (GetTagFromImageName name) jmxSuffix = "latest"
                || IsAboveMinVersion (trimSuffix (GetTagFromImageName name) jmxSuffix) "7.27.0-0"
                || IsAboveMinVersion (trimSuffix (GetTagFromImageName name) jmxSuffix) "6.27.0-0")
              then none
              else some { DockerSocketPath := some defaultDockerSocketPath }) := by
  constructor
  · intro t m h
    simp [IsAboveMinVersion, h]
  · by_cases hgate : (trimSuffix (GetTagFromImageName name) jmxSuffix = "latest"
        || IsAboveMinVersion (trimSuffix (GetTagFromImageName name) jmxSuffix) "7.27.0-0"
        || IsAboveMinVersion (trimSuffix (GetTagFromImageName name) jmxSuffix) "6.27.0-0") = true
    · simp [DefaultDatadogAgentSpecAgentConfig, hgate]
      decide
    · simp [DefaultDatadogAgentSpecAgentConfig, hgate]
      decide

/-- C8 witness: the tag latest fails to parse yet IsAboveMinVersion returns
false rather than erroring, and for a concrete below-threshold tag the
docker socket default is applied. -/
theorem criSocket_default_version_gate_witness :
    IsAboveMinVersion "latest" "7.27.0-0" = false
    ∧ ((DefaultDatadogAgentSpecAgentConfig
          { Enabled := some true, Image := some { Name := "agent:6.20.0" } }).map fun p =>
            p.1.NodeAgent.bind fun na => na.CriSocket) =
        some (some { DockerSocketPath := some defaultDockerSocketPath }) := by
  constructor
  · exact (criSocket_default_version_gate "agent:6.20.0").1 "latest" "7.27.0-0" (by decide)
  · have h := (criSocket_default_version_gate "agent:6.20.0").2
    rw [h]
    decide

/-- C10 (code bug): DefaultDatadogAgent is not total. When a triggering
feature is enabled while the corresponding agent subtree is absent and the
agent's Enabled flag is unset, the FeatureOverride guard admits the branch
and dereferences the nil subtree pointer (Process for orchestrator
explorer, SystemProbe for network monitoring), embedded as `none`. -/
theorem DefaultDatadogAgent_nil_dereference_on_enabled_feature :
    DefaultDatadogAgent
      { Spec := { Features := { OrchestratorExplorer := some { Enabled := some true } } } } = none
    ∧ DefaultDatadogAgent
      { Spec := { Features := { NetworkMonitoring := some { Enabled := some true } } } } = none := by
  exact ⟨by decide, by decide⟩

end DatadogOperator
